import Mathlib

/-!
Verification development for the recommendation-assistant core of the
DATA236_Lab1 repository (`backend/app/services/ai_assistant_service.py`).

The Python service is shallowly embedded below.  Modelling conventions:

* Python `str` is Lean `String`; `str.lower()` / `str.strip()` are modelled
  by the executable functions `pyLower` / `pyStrip` (ASCII case mapping, the
  4 ASCII whitespace characters), matching Python on the ASCII inputs the
  service manipulates.
* SQLAlchemy queries are evaluated against a `DB` value: the restaurant
  catalog is a fixed ordered list (the row order the database would return),
  `SELECT ... WHERE p LIMIT n` is `(catalog.filter p).take n`, and
  `col.ilike '%pat%'` is a case-insensitive substring test (a NULL column
  never matches).  `_fetch_ratings(db, ids).get(id, (0.0, 0))` is modelled by
  the total map `DB.ratings`, and `_load_user_preferences` by `DB.prefsFor`
  (both already include the Python-side defaults).
* Python floats are modelled by `ℚ`; all score constants are exact decimals.
* The optional LLM and Tavily web-search providers are modelled as absent /
  failing: per the source, `_build_llm_client` returns `None` without a
  configured key, `_fetch_tavily_context` returns `{}`, and every provider
  exception is swallowed at its call site.  The merge step
  `_merge_intent_with_message_priority`, which only runs when the LLM pass
  succeeded, is embedded as a function of the (already normalized) LLM
  intent, so LLM-dependent claims quantify over that input.
-/

/-- ASCII lower-casing of one character, Python `str.lower` on ASCII. -/
def pyLowerChar (c : Char) : Char :=
  if 65 ≤ c.toNat ∧ c.toNat ≤ 90 then Char.ofNat (c.toNat + 32) else c

/-- ASCII upper-casing of one character, Python `str.upper` on ASCII. -/
def pyUpperChar (c : Char) : Char :=
  if 97 ≤ c.toNat ∧ c.toNat ≤ 122 then Char.ofNat (c.toNat - 32) else c

/-- Python `str.lower()` (ASCII). -/
def pyLower (s : String) : String := ⟨s.data.map pyLowerChar⟩

/-- Python `str.strip()` on a character list: drop whitespace at both ends. -/
def pyStripList (l : List Char) : List Char :=
  ((l.dropWhile Char.isWhitespace).reverse.dropWhile Char.isWhitespace).reverse

/-- Python `str.strip()`. -/
def pyStrip (s : String) : String := ⟨pyStripList s.data⟩

/-- Python `str.strip(chars)`: drop characters of `cs` at both ends. -/
def pyStripChars (cs : List Char) (s : String) : String :=
  ⟨((s.data.dropWhile (cs.contains ·)).reverse.dropWhile (cs.contains ·)).reverse⟩

/-- Substring test on character lists (Python `pat in hay`). -/
def containsSub : List Char → List Char → Bool
  | hay, pat =>
    pat.isPrefixOf hay ||
      match hay with
      | [] => false
      | _ :: t => containsSub t pat

/-- Python `pat in hay` on strings. -/
def strContains (hay pat : String) : Bool := containsSub hay.data pat.data

/-- Index of the first occurrence of `pat` in `hay` (Python `str.find`,
with `none` for `-1`). -/
def findSub : List Char → List Char → Option Nat
  | hay, pat =>
    if pat.isPrefixOf hay then some 0
    else
      match hay with
      | [] => none
      | _ :: t => (findSub t pat).map (· + 1)

/-- Python `str.find` on strings. -/
def strFind (hay pat : String) : Option Nat := findSub hay.data pat.data

/-- ASCII letter test (regex `[a-zA-Z]`). -/
def isAsciiAlpha (c : Char) : Bool :=
  (97 ≤ c.toNat ∧ c.toNat ≤ 122) || (65 ≤ c.toNat ∧ c.toNat ≤ 90)

/-- Regex word character (`\w`), used for `\b` boundaries. -/
def isRegexWordChar (c : Char) : Bool :=
  isAsciiAlpha c || c.isDigit || c = '_'

/-- Python `str.title()` character transform: letters after a non-letter are
upper-cased, other letters lower-cased. -/
def pyTitleGo : Bool → List Char → List Char
  | _, [] => []
  | prevAlpha, c :: t =>
    if isAsciiAlpha c then
      (if prevAlpha then pyLowerChar c else pyUpperChar c) :: pyTitleGo true t
    else
      c :: pyTitleGo false t

/-- Python `str.title()` (ASCII). -/
def pyTitle (s : String) : String := ⟨pyTitleGo false s.data⟩

/-- A conversation turn (`ConversationTurn` schema): role is `"user"` or
`"assistant"`. -/
structure ConversationTurn where
  role : String
  content : String
deriving DecidableEq

/-- The `Restaurant` ORM row, restricted to the columns the assistant
service reads.  `name` and `city` are non-nullable columns; the remaining
text columns are nullable.  `hours_json` is the JSON hours mapping (`none`
models NULL or a non-dict value), `amenities` the JSON tag list. -/
structure Restaurant where
  id : Nat
  name : String
  cuisine_type : Option String
  description : Option String
  street : Option String
  city : String
  state : Option String
  zip_code : Option String
  phone : Option String
  email : Option String
  pricing_tier : Option String
  hours_json : Option (List (String × String))
  amenities : Option (List String)
deriving DecidableEq

/-- Output of `_load_user_preferences`: the saved preference record with the
Python-side `or []` / `or "rating"` defaults already applied. -/
structure Preference where
  cuisines : List String
  price_range : Option String
  preferred_locations : List String
  dietary_needs : List String
  ambiance : List String
  sort_preference : String
deriving DecidableEq

/-- The all-empty preference record returned when no row exists. -/
def emptyPreference : Preference :=
  { cuisines := [], price_range := none, preferred_locations := []
    dietary_needs := [], ambiance := [], sort_preference := "rating" }

/-- The query-intent record: the dict produced by `_extract_intent_heuristic`
/ `_normalize_intent` (all keys always present). -/
structure Intent where
  cuisines : List String
  price_range : Option String
  location : Option String
  dietary_needs : List String
  ambiance : List String
  keywords : List String
  occasion : Option String
deriving DecidableEq

/-- `SuggestedRestaurant` response schema. -/
structure SuggestedRestaurant where
  id : Nat
  name : String
  reason : String
  average_rating : Option ℚ
  pricing_tier : Option String
  cuisine_type : Option String
  city : Option String
deriving DecidableEq

/-- `AIChatResponse` response schema. -/
structure AIChatResponse where
  reply : String
  suggested_restaurants : List SuggestedRestaurant
deriving DecidableEq

/-- One row of the ranked list built by `_search_and_rank_restaurants`. -/
structure RankedRow where
  restaurant : Restaurant
  score : ℚ
  average_rating : ℚ
  review_count : Nat
  reasons : List String
deriving DecidableEq

/-- The database visible to the service: the catalog in row order, the
rating aggregate per restaurant id (`_fetch_ratings` result with its
`(0.0, 0)` default), and the per-user preference record
(`_load_user_preferences` result, defaults applied). -/
structure DB where
  catalog : List Restaurant
  ratings : Nat → ℚ × Nat
  prefsFor : Nat → Preference

/-- Python truthiness of an optional string (`None` and `""` are falsy). -/
def optTruthy : Option String → Bool
  | none => false
  | some s => s ≠ ""

/-- `col.ilike f"%{pat}%"` on a nullable column: NULL never matches. -/
def ilikeSub (col : Option String) (pat : String) : Bool :=
  match col with
  | none => false
  | some s => strContains (pyLower s) (pyLower pat)

/-- `col.ilike pat` without wildcards: case-insensitive equality. -/
def ilikeEq (col pat : String) : Bool := pyLower col = pyLower pat

/-- `_DEFAULT_CUISINES` (a Python set; listed here already sorted). -/
def defaultCuisines : List String :=
  ["american", "chinese", "french", "indian", "italian", "japanese",
   "korean", "mediterranean", "mexican", "thai", "vietnamese"]

/-- `_DEFAULT_DIETARY`. -/
def defaultDietary : List String :=
  ["vegetarian", "vegan", "halal", "gluten-free", "gluten free", "kosher",
   "keto", "dairy-free", "dairy free"]

/-- `_DEFAULT_AMBIANCE`. -/
def defaultAmbiance : List String :=
  ["casual", "fine dining", "family-friendly", "family friendly",
   "romantic", "quiet", "trendy", "outdoor"]

/-- `_STOP_WORDS`. -/
def stopWords : List String :=
  ["a", "an", "and", "at", "best", "by", "for", "from", "i", "in", "is",
   "it", "me", "near", "of", "on", "place", "please", "recommend",
   "restaurant", "restaurants", "show", "suggest", "something", "the",
   "to", "find", "want", "with"]

/-- `_PRICE_SET`. -/
def priceSet : List String := ["$", "$$", "$$$", "$$$$"]

/-- Lexicographic (code-point) comparison on character lists, Python
string `<=`. -/
def charListLe : List Char → List Char → Bool
  | [], _ => true
  | _ :: _, [] => false
  | a :: as, b :: bs => if a = b then charListLe as bs else decide (a < b)

/-- Python `sorted(set)` over strings: deduplicate, then sort
lexicographically by code points (a stable structural sort of a
duplicate-free list; the result is the unique sorted enumeration). -/
def pySortedSet (l : List String) : List String :=
  l.dedup.insertionSort (fun a b => charListLe a.data b.data = true)

/-- Characters of a regex word run: letters and hyphens. -/
def isWordRunChar (c : Char) : Bool := isAsciiAlpha c || c = '-'

/-- Emit the match contributed by one maximal letter/hyphen run (held
reversed in `buf`): leading hyphens cannot start a match, and the match
needs at least 3 characters. -/
def emitBuf (buf : List Char) : List String :=
  let core := buf.reverse.dropWhile (· = '-')
  if 3 ≤ core.length then [String.mk core] else []

/-- Scanner for `re.findall(r"[a-zA-Z][a-zA-Z\-]{2,}", s)`: accumulate the
current letter/hyphen run (reversed) and emit it at each boundary. -/
def findWordsGo (buf : List Char) : List Char → List String
  | [] => emitBuf buf
  | c :: t =>
    if isWordRunChar c then findWordsGo (c :: buf) t
    else emitBuf buf ++ findWordsGo [] t

/-- `re.findall(r"[a-zA-Z][a-zA-Z\-]{2,}", s)`: maximal runs of
letters/hyphens that start with a letter and are at least 3 characters
long, left to right. -/
def findWords (l : List Char) : List String := findWordsGo [] l

/-- Regex `re.search(r"\$\x7b1,4\x7d", message)` followed by the
`_PRICE_SET` membership test: the first run of `$` characters, truncated
to 4 (such a run is always in the set). -/
def extractPrice : List Char → Option String
  | [] => none
  | c :: rest =>
    if c = '$' then
      some (String.mk ('$' :: (rest.takeWhile (· = '$')).take 3))
    else extractPrice rest

/-- One attempt of the location regex at the current position: try the
case-insensitive literal `kw`, then `\s+`, then capture
`[a-zA-Z][a-zA-Z\s]{1,40}` greedily (the capture is over the original,
non-lowered characters). -/
def locTry (kw : List Char) (l : List Char) : Option (List Char) :=
  if (l.take kw.length).map pyLowerChar = kw then
    let after := l.drop kw.length
    let ws := after.takeWhile Char.isWhitespace
    if ws.length = 0 then none
    else
      match after.drop ws.length with
      | [] => none
      | c :: t =>
        if isAsciiAlpha c then
          let run := (t.takeWhile (fun d => isAsciiAlpha d || d.isWhitespace)).take 40
          if 1 ≤ run.length then some (c :: run) else none
        else none
  else none

/-- Regex `re.search(r"\b(?:in|near|around)\s+([a-zA-Z][a-zA-Z\s]{1,40})",
message, re.I)`: scan left to right; at each word boundary try the three
keywords in order; return the first capture group. `prevWord` records
whether the previous character was a word character (for `\b`). -/
def locScan : List Char → Bool → Option (List Char)
  | [], _ => none
  | c :: rest, prevWord =>
    if prevWord then locScan rest (isRegexWordChar c)
    else
      match locTry "in".data (c :: rest) with
      | some g => some g
      | none =>
        match locTry "near".data (c :: rest) with
        | some g => some g
        | none =>
          match locTry "around".data (c :: rest) with
          | some g => some g
          | none => locScan rest (isRegexWordChar c)

/-- Location extraction in `_extract_intent_heuristic`: regex capture, then
`strip(" .,!?")`; an empty stripped capture is falsy, handled downstream. -/
def extractLocation (message : String) : Option String :=
  (locScan message.data false).map (fun g => pyStripChars [' ', '.', ',', '!', '?'] ⟨g⟩)

/-- The fixed occasion vocabulary, in the order tested. -/
def occasionTokens : List String :=
  ["anniversary", "birthday", "date", "dinner", "lunch", "brunch", "tonight"]

/-- `_extract_intent_heuristic`. -/
def extract_intent_heuristic (message : String) (preferences : Preference) : Intent :=
  let lowered := pyLower message
  let cuisine_vocab := pySortedSet
    ((preferences.cuisines.filter (· ≠ "")).map pyLower ++ defaultCuisines)
  let dietary_vocab := pySortedSet
    ((preferences.dietary_needs.filter (· ≠ "")).map pyLower ++ defaultDietary)
  let ambiance_vocab := pySortedSet
    ((preferences.ambiance.filter (· ≠ "")).map pyLower ++ defaultAmbiance)
  let cuisines := cuisine_vocab.filter (fun c => strContains lowered c)
  let dietary := dietary_vocab.filter (fun d => strContains lowered d)
  let ambiance := ambiance_vocab.filter (fun a => strContains lowered a)
  let price_range := extractPrice message.data
  let location :=
    match extractLocation message with
    | none => none
    | some g => some g
  let words := (findWords lowered.data).filter (fun w => ¬ stopWords.contains w)
  let keywords := words.take 6
  let occasion := occasionTokens.find? (fun t => strContains lowered t)
  { cuisines := cuisines, price_range := price_range, location := location
    dietary_needs := dietary, ambiance := ambiance, keywords := keywords
    occasion := occasion }

/-- `_clean_list` inside `_merge_intent_with_message_priority`: strip and
lower each entry, drop empties, deduplicate keeping first occurrences. -/
def cleanListGo (seen : List String) : List String → List String
  | [] => []
  | raw :: rest =>
    let token := pyLower (pyStrip raw)
    if token = "" ∨ seen.contains token then cleanListGo seen rest
    else token :: cleanListGo (token :: seen) rest

/-- `_clean_list`. -/
def cleanList (values : List String) : List String := cleanListGo [] values

/-- `_normalize_intent`: strip/lower and drop empties in each list field,
cap lengths (6/6/6/8), force `price_range` into the 4-tier set, strip the
scalars. -/
def normalize_intent (intent : Intent) : Intent :=
  let cuisines := (intent.cuisines.filter (fun v => pyStrip v ≠ "")).map
    (fun v => pyLower (pyStrip v))
  let dietary := (intent.dietary_needs.filter (fun v => pyStrip v ≠ "")).map
    (fun v => pyLower (pyStrip v))
  let ambiance := (intent.ambiance.filter (fun v => pyStrip v ≠ "")).map
    (fun v => pyLower (pyStrip v))
  let keywords := (intent.keywords.filter (fun v => pyStrip v ≠ "")).map
    (fun v => pyLower (pyStrip v))
  let price_range :=
    match intent.price_range with
    | some p => if priceSet.contains p then some p else none
    | none => none
  { cuisines := cuisines.take 6
    price_range := price_range
    location := match intent.location with
      | some l => if l ≠ "" then some (pyStrip l) else none
      | none => none
    dietary_needs := dietary.take 6
    ambiance := ambiance.take 6
    keywords := keywords.take 8
    occasion := match intent.occasion with
      | some o => if o ≠ "" then some (pyLower (pyStrip o)) else none
      | none => none }

/-- `_merge_intent_with_message_priority`: runs only when the LLM pass
succeeded; `llm_intent` is the (already `_normalize_intent`-ed) LLM value. -/
def merge_intent_with_message_priority (llm_intent heuristic_intent : Intent) : Intent :=
  let cuisines :=
    let h := cleanList heuristic_intent.cuisines
    if h ≠ [] then h else cleanList llm_intent.cuisines
  let dietary :=
    let h := cleanList heuristic_intent.dietary_needs
    if h ≠ [] then h else cleanList llm_intent.dietary_needs
  let ambiance :=
    let h := cleanList heuristic_intent.ambiance
    if h ≠ [] then h else cleanList llm_intent.ambiance
  let keywords := (cleanList heuristic_intent.keywords ++ cleanList llm_intent.keywords).take 8
  let price_range :=
    if optTruthy heuristic_intent.price_range then heuristic_intent.price_range
    else llm_intent.price_range
  let location :=
    if optTruthy heuristic_intent.location then heuristic_intent.location
    else llm_intent.location
  let occasion :=
    if optTruthy heuristic_intent.occasion then heuristic_intent.occasion
    else llm_intent.occasion
  normalize_intent
    { cuisines := cuisines, price_range := price_range, location := location
      dietary_needs := dietary, ambiance := ambiance, keywords := keywords
      occasion := occasion }

/-- `_extract_intent` with the LLM provider absent/failing
(`_extract_intent_with_llm` returns `None`): the heuristic intent is
returned unchanged. -/
def extract_intent (message : String) (_conversation_history : List ConversationTurn)
    (preferences : Preference) : Intent :=
  extract_intent_heuristic message preferences

/-- The lower-cased text blob over which dietary/ambiance/keyword/occasion
matches are tested in `_score_restaurant`: name, cuisine, description and
the joined amenities, joined by single spaces. -/
def textBlob (r : Restaurant) : String :=
  pyLower (String.intercalate " "
    [r.name, r.cuisine_type.getD "", r.description.getD "",
     String.intercalate " " (r.amenities.getD [])])

/-- Python `f"{x:.1f}"`: round to one decimal place, ties to even. -/
def round1 (q : ℚ) : ℤ :=
  let x := q * 10
  if x - ⌊x⌋ = 1/2 then (if ⌊x⌋ % 2 = 0 then ⌊x⌋ else ⌊x⌋ + 1)
  else ⌊x + 1/2⌋

/-- Render a rational with one decimal digit (Python `f"{x:.1f}"`). -/
def fmt1 (q : ℚ) : String :=
  let n := round1 q
  (if n < 0 then "-" else "") ++ toString (n.natAbs / 10) ++ "." ++ toString (n.natAbs % 10)

/-- The trailing informational reason appended by `_score_restaurant`. -/
def ratedReason (average_rating : ℚ) (review_count : Nat) : String :=
  "Rated " ++ fmt1 average_rating ++ "★ from " ++ toString review_count ++ " review(s)"

/-- `_score_restaurant`.  The Python function threads a mutable `score` and
`reasons` through a fixed sequence of independent bonus blocks; each block
is rendered here as its `(bonus, extra reasons)` contribution and the
results are summed/concatenated in the same order. -/
def score_restaurant (r : Restaurant) (average_rating : ℚ) (review_count : Nat)
    (intent : Intent) (preferences : Preference) : ℚ × List String :=
  let blob := textBlob r
  let wanted_cuisines := intent.cuisines.map pyLower
  let pref_cuisines := preferences.cuisines.map pyLower
  let restaurant_cuisine := pyLower (r.cuisine_type.getD "")
  let cuisinePart : ℚ × List String :=
    if !wanted_cuisines.isEmpty && wanted_cuisines.any (fun c => strContains restaurant_cuisine c) then
      (4, ["Matches your cuisine request"])
    else if !pref_cuisines.isEmpty && pref_cuisines.any (fun c => strContains restaurant_cuisine c) then
      (2, ["Matches your saved cuisine preferences"])
    else (0, [])
  let pricePart : ℚ × List String :=
    if optTruthy intent.price_range && r.pricing_tier = intent.price_range then
      (2.5, ["Within your requested budget (" ++ intent.price_range.getD "" ++ ")"])
    else if optTruthy preferences.price_range && r.pricing_tier = preferences.price_range then
      (1.5, ["Matches your usual budget (" ++ preferences.price_range.getD "" ++ ")"])
    else (0, [])
  let locMatch : Bool :=
    match intent.location with
    | some l => l ≠ "" && strContains (pyLower r.city) (pyLower l)
    | none => false
  let locPart : ℚ × List String :=
    if locMatch then (2, ["In your requested area (" ++ r.city ++ ")"])
    else
      match preferences.preferred_locations.find?
          (fun pl => pl ≠ "" && strContains (pyLower r.city) (pyLower pl)) with
      | some _ => (1.2, ["In your preferred location (" ++ r.city ++ ")"])
      | none => (0, [])
  let wanted_dietary := intent.dietary_needs.map pyLower
  let pref_dietary := preferences.dietary_needs.map pyLower
  let dietPart : ℚ × List String :=
    match (wanted_dietary ++ pref_dietary).find? (fun t => t ≠ "" && strContains blob t) with
    | some t => (1, ["Supports " ++ t ++ " options"])
    | none => (0, [])
  let wanted_ambiance := intent.ambiance.map pyLower
  let pref_ambiance := preferences.ambiance.map pyLower
  let ambPart : ℚ × List String :=
    match (wanted_ambiance ++ pref_ambiance).find? (fun t => t ≠ "" && strContains blob t) with
    | some t => (0.8, ["Fits " ++ t ++ " ambiance"])
    | none => (0, [])
  let kwPart : ℚ :=
    (((intent.keywords.take 4).filter
      (fun kw => kw ≠ "" && strContains blob (pyLower kw))).length : ℚ) * 0.6
  let occPart : ℚ :=
    match intent.occasion with
    | some o => if o ≠ "" && strContains blob o then 0.6 else 0
    | none => 0
  let ratingReasons : List String :=
    if 0 < average_rating then [ratedReason average_rating review_count] else []
  (average_rating * 0.9 + ((min review_count 40 : ℕ) : ℚ) * 0.05
     + cuisinePart.1 + pricePart.1 + locPart.1 + dietPart.1 + ambPart.1 + kwPart + occPart,
   cuisinePart.2 ++ pricePart.2 ++ locPart.2 ++ dietPart.2 ++ ambPart.2 ++ ratingReasons)

/-- Textual rendering of the JSON amenities column under
`cast(Restaurant.amenities, String)`. -/
def amenitiesText (am : List String) : String :=
  "[" ++ String.intercalate ", " (am.map (fun s => "\"" ++ s ++ "\"")) ++ "]"

/-- The free-text keyword OR-filter of `_search_and_rank_restaurants`:
for each of the first 4 keywords, `ilike %kw%` over name, cuisine type,
description and the cast amenities column. -/
def keywordClausePred (keywords : List String) (r : Restaurant) : Bool :=
  (keywords.take 4).any (fun kw =>
    ilikeSub (some r.name) kw || ilikeSub r.cuisine_type kw || ilikeSub r.description kw ||
      (match r.amenities with
       | none => false
       | some am => strContains (pyLower (amenitiesText am)) (pyLower kw)))

/-- The WHERE clause assembled by `_search_and_rank_restaurants`: cuisine
OR-filter when cuisines were requested, city filter when a location is
truthy, and the keyword filter only when neither of those was given. -/
def candidatePred (intent : Intent) (r : Restaurant) : Bool :=
  (if intent.cuisines.isEmpty then true
   else intent.cuisines.any (fun c => ilikeSub r.cuisine_type c)) &&
  (match intent.location with
   | some l => if l ≠ "" then ilikeSub (some r.city) l else true
   | none => true) &&
  (if !intent.keywords.isEmpty && !(!intent.cuisines.isEmpty || optTruthy intent.location) then
    keywordClausePred intent.keywords r
   else true)

/-- The filtered candidate fetch (`db.execute(stmt.limit(60))`). -/
def candidate_query (db : DB) (intent : Intent) : List Restaurant :=
  (db.catalog.filter (candidatePred intent)).take 60

/-- Descending lexicographic comparison on
`(score, average_rating, review_count)`; used as the `le` of a stable sort,
it reproduces `list.sort(key=..., reverse=True)`. -/
def keyGe (a b : RankedRow) : Bool :=
  if a.score = b.score then
    if a.average_rating = b.average_rating then b.review_count ≤ a.review_count
    else decide (b.average_rating < a.average_rating)
  else decide (b.score < a.score)

/-- Build the ranked rows (restaurant, score, rating aggregate, reasons)
for a candidate list, in candidate order. -/
def rankRows (db : DB) (intent : Intent) (preferences : Preference)
    (restaurants : List Restaurant) : List RankedRow :=
  restaurants.map (fun r =>
    let avg := (db.ratings r.id).1
    let cnt := (db.ratings r.id).2
    let sc := score_restaurant r avg cnt intent preferences
    { restaurant := r, score := sc.1, average_rating := avg
      review_count := cnt, reasons := sc.2 })

/-- `_search_and_rank_restaurants`. -/
def search_and_rank_restaurants (db : DB) (intent : Intent)
    (preferences : Preference) : List RankedRow :=
  let restaurants := candidate_query db intent
  if restaurants.isEmpty && !intent.cuisines.isEmpty then []
  else
    let restaurants := if restaurants.isEmpty then db.catalog.take 60 else restaurants
    if restaurants.isEmpty then []
    else (rankRows db intent preferences restaurants).insertionSort (fun a b => keyGe a b = true)

/-- `_HOURS_FOLLOWUP_TOKENS`. -/
def hoursFollowupTokens : List String :=
  ["hour", "hours", "open", "opening", "close", "closing", "time", "schedule"]

/-- `_LOCATION_FOLLOWUP_TOKENS`. -/
def locationFollowupTokens : List String := ["where", "location", "located", "address"]

/-- `_CONTACT_FOLLOWUP_TOKENS`. -/
def contactFollowupTokens : List String := ["contact", "phone", "number", "call", "email"]

/-- `_PRICE_FOLLOWUP_TOKENS`. -/
def priceFollowupTokens : List String := ["price", "cost", "expensive", "cheap", "budget", "$"]

/-- `_RATING_FOLLOWUP_TOKENS`. -/
def ratingFollowupTokens : List String := ["rating", "rated", "stars", "star", "score", "average"]

/-- `_CUISINE_FOLLOWUP_TOKENS`. -/
def cuisineFollowupTokens : List String := ["cuisine", "food", "dish", "dishes"]

/-- `_AMENITY_FOLLOWUP_TOKENS`. -/
def amenityFollowupTokens : List String :=
  ["amenity", "amenities", "parking", "wifi", "outdoor", "patio", "vegan",
   "vegetarian", "halal", "romantic", "family", "casual", "quiet", "trendy"]

/-- `_FOLLOWUP_TOPIC_ORDER` (fixed priority order). -/
def followupTopicOrder : List (String × List String) :=
  [("hours", hoursFollowupTokens), ("location", locationFollowupTokens),
   ("contact", contactFollowupTokens), ("rating", ratingFollowupTokens),
   ("price", priceFollowupTokens), ("amenities", amenityFollowupTokens),
   ("cuisine", cuisineFollowupTokens)]

/-- `_PRONOUN_FOLLOWUP_TOKENS`. -/
def pronounFollowupTokens : List String := ["it", "its", "that", "this", "one", "ones"]

/-- `_ORDINAL_HINTS`, in dict insertion order. -/
def ordinalHints : List (String × Nat) :=
  [("first", 0), ("1st", 0), ("second", 1), ("2nd", 1), ("third", 2), ("3rd", 2)]

/-- `_NEW_SEARCH_HINTS`. -/
def newSearchHints : List String :=
  ["recommend", "suggest", "find", "show", "search", "looking for", "i want"]

/-- `_detect_followup_type`: the first topic whose token set hits the
lower-cased message. -/
def detect_followup_type (message : String) : Option String :=
  let lowered := pyLower message
  (followupTopicOrder.find? (fun p => p.2.any (fun tok => strContains lowered tok))).map (·.1)

/-- `_build_location_followup_reply`. -/
def build_location_followup_reply (r : Restaurant) : String :=
  let location_parts := [r.street, some r.city, r.state, r.zip_code].filterMap
    (fun part => match part with
      | some p => if pyStrip p ≠ "" then some (pyStrip p) else none
      | none => none)
  if ¬ location_parts.isEmpty then
    r.name ++ " is located in " ++ String.intercalate ", " location_parts ++ "."
  else if r.city ≠ "" then r.name ++ " is in " ++ r.city ++ "."
  else "I couldn\x27t find a full location for " ++ r.name ++ ", but you can open its detail card."

/-- Final fallback text of `_build_hours_followup_reply` (the Tavily hint
is absent without a configured provider). -/
def hoursFallbackText (r : Restaurant) : String :=
  "I couldn\x27t find reliable open hours for " ++ r.name ++ " in our local data. " ++
    "Please check the official listing before visiting."

/-- `_build_hours_followup_reply` (Tavily provider absent). -/
def build_hours_followup_reply (r : Restaurant) : String :=
  match r.hours_json with
  | some hj =>
    if ¬ hj.isEmpty then
      let pairs := hj.filterMap (fun dh =>
        if dh.1 ≠ "" ∧ pyStrip dh.2 ≠ "" then some (pyTitle dh.1 ++ ": " ++ dh.2) else none)
      if ¬ pairs.isEmpty then r.name ++ " hours: " ++ String.intercalate " | " (pairs.take 7)
      else hoursFallbackText r
    else hoursFallbackText r
  | none => hoursFallbackText r

/-- `_build_contact_followup_reply`. -/
def build_contact_followup_reply (r : Restaurant) : String :=
  let contact_bits :=
    (match r.phone with
     | some p => if p ≠ "" then ["phone: " ++ p] else []
     | none => []) ++
    (match r.email with
     | some e => if e ≠ "" then ["email: " ++ e] else []
     | none => [])
  if ¬ contact_bits.isEmpty then
    r.name ++ " contact info: " ++ String.intercalate " | " contact_bits
  else "I couldn\x27t find direct contact details for " ++ r.name ++ " in our local data."

/-- `_build_rating_followup_reply`. -/
def build_rating_followup_reply (r : Restaurant) (average_rating : ℚ) (review_count : Nat) : String :=
  if 0 < review_count then
    r.name ++ " currently averages " ++ fmt1 average_rating ++ "★ from " ++
      toString review_count ++ " review(s)."
  else r.name ++ " does not have ratings yet."

/-- `_build_price_followup_reply`. -/
def build_price_followup_reply (r : Restaurant) : String :=
  if optTruthy r.pricing_tier then
    r.name ++ " is in the " ++ r.pricing_tier.getD "" ++ " price tier."
  else "I don\x27t have pricing tier data for " ++ r.name ++ " yet."

/-- `_build_cuisine_followup_reply`. -/
def build_cuisine_followup_reply (r : Restaurant) : String :=
  if optTruthy r.cuisine_type then
    r.name ++ " serves " ++ r.cuisine_type.getD "" ++ " cuisine."
  else "I don\x27t have a cuisine label recorded for " ++ r.name ++ "."

/-- Text fallback of `_build_amenities_followup_reply`. -/
def amenitiesReplyFallback (r : Restaurant) : String :=
  let text_bits := [r.description, r.cuisine_type].filterMap
    (fun b => match b with
      | some s => if s ≠ "" then some s else none
      | none => none)
  if ¬ text_bits.isEmpty then
    "I don\x27t have structured amenities for " ++ r.name ++ ", but here\x27s what I know: " ++
      String.intercalate " " text_bits
  else "I don\x27t have amenities data for " ++ r.name ++ " yet."

/-- `_build_amenities_followup_reply`. -/
def build_amenities_followup_reply (r : Restaurant) : String :=
  match r.amenities with
  | some raw =>
    let amenities := raw.filterMap
      (fun item => if pyStrip item ≠ "" then some (pyStrip item) else none)
    if ¬ amenities.isEmpty then
      r.name ++ " amenities: " ++ String.intercalate ", " (amenities.take 8)
    else amenitiesReplyFallback r
  | none => amenitiesReplyFallback r

/-- `_build_summary_followup_reply`. -/
def build_summary_followup_reply (r : Restaurant) : String :=
  let location := if r.city ≠ "" then r.city else "unknown location"
  let cuisine := match r.cuisine_type with
    | some c => if c ≠ "" then c else "unspecified cuisine"
    | none => "unspecified cuisine"
  let price := match r.pricing_tier with
    | some p => if p ≠ "" then p else "unknown price tier"
    | none => "unknown price tier"
  r.name ++ ": " ++ cuisine ++ ", " ++ price ++ ", in " ++ location ++ ". " ++
    "You can ask me for its location, open hours, contact, price, or amenities."

/-- `_build_attribute_followup_reply`: the topic-specific `(reply, reason)`
pair. -/
def build_attribute_followup_reply (r : Restaurant) (followup_type : String)
    (average_rating : ℚ) (review_count : Nat) : String × String :=
  if followup_type = "hours" then
    (build_hours_followup_reply r, "Open-hours details for your selected restaurant")
  else if followup_type = "location" then
    (build_location_followup_reply r, "Location details for your selected restaurant")
  else if followup_type = "contact" then
    (build_contact_followup_reply r, "Contact details for your selected restaurant")
  else if followup_type = "rating" then
    (build_rating_followup_reply r average_rating review_count,
     "Rating details for your selected restaurant")
  else if followup_type = "price" then
    (build_price_followup_reply r, "Pricing details for your selected restaurant")
  else if followup_type = "amenities" then
    (build_amenities_followup_reply r, "Amenities details for your selected restaurant")
  else if followup_type = "cuisine" then
    (build_cuisine_followup_reply r, "Cuisine details for your selected restaurant")
  else (build_summary_followup_reply r, "Details for your selected restaurant")

/-- `_extract_referenced_restaurant_name`: name substring, then ordinal
hints in dict order, then "last", then "top"/"best", then any pronoun. -/
def extract_referenced_restaurant_name (message : String)
    (ranked_names : List String) : Option String :=
  let lowered := pyLower message
  match ranked_names.find? (fun name => strContains lowered (pyLower name)) with
  | some name => some name
  | none =>
    match ordinalHints.find? (fun p => strContains lowered p.1 && decide (p.2 < ranked_names.length)) with
    | some p => ranked_names.get? p.2
    | none =>
      if strContains lowered "last" && ¬ ranked_names.isEmpty then ranked_names.getLast?
      else if (strContains lowered "top" || strContains lowered "best") && ¬ ranked_names.isEmpty then
        ranked_names.head?
      else if pronounFollowupTokens.any (fun tok => strContains lowered tok) then
        ranked_names.head?
      else none

/-- Stop condition of the lazy capture group in `_extract_ranked_names`:
the remainder, after whitespace, starts with `(` or `-` or is the end of
the line. -/
def captureStops (l : List Char) : Bool :=
  match l.dropWhile Char.isWhitespace with
  | [] => true
  | c :: _ => c = '(' || c = '-'

/-- Lazy capture `([^\(\n\-]+?)(?:\s*\(|\s*-|$)` of the ranked-list regex:
the shortest non-empty prefix after which the stop condition holds. -/
def captureName (acc : List Char) : List Char → Option (List Char)
  | [] => if acc.isEmpty then none else some acc.reverse
  | c :: t =>
    if acc.isEmpty then
      if c = '(' || c = '-' then none
      else if captureStops t then some [c] else captureName [c] t
    else
      if captureStops (c :: t) then some acc.reverse
      else captureName (c :: acc) t

/-- One line of `_extract_ranked_names`: `^\s*\d+\.\s*` then the lazy
capture; the captured group is then `strip()`-ed. -/
def parseRankedLine (line : List Char) : Option String :=
  let r1 := line.dropWhile Char.isWhitespace
  let digits := r1.takeWhile Char.isDigit
  let r2 := r1.dropWhile Char.isDigit
  if digits.isEmpty then none
  else
    match r2 with
    | '.' :: r3 => (captureName [] (r3.dropWhile Char.isWhitespace)).map (fun g => pyStrip ⟨g⟩)
    | _ => none

/-- Split a character list at newline characters (keeping empty lines). -/
def splitLinesGo (cur : List Char) : List Char → List (List Char)
  | [] => [cur.reverse]
  | c :: t => if c = '\n' then cur.reverse :: splitLinesGo [] t else splitLinesGo (c :: cur) t

/-- `_extract_ranked_names`: the numbered-list names recovered from a
rendered reply.  The multiline regex matches at most once per line (see
`parseRankedLine`); empty names are dropped. -/
def extract_ranked_names (text : String) : List String :=
  ((splitLinesGo [] text.data).filterMap parseRankedLine).filter (· ≠ "")

/-- Keep-first case-insensitive deduplication (the `seen` set loop of
`_extract_mentioned_restaurant_names`). -/
def dedupByLowerGo (seen : List String) : List String → List String
  | [] => []
  | name :: rest =>
    let key := pyLower name
    if seen.contains key then dedupByLowerGo seen rest
    else name :: dedupByLowerGo (key :: seen) rest

/-- Ascending lexicographic comparison on the `(index, -len, name)` sort
key of `_extract_mentioned_restaurant_names` (the middle component is
stored as a positive length, compared in reverse). -/
def matchTripleLe (a b : Nat × Nat × String) : Bool :=
  if a.1 = b.1 then
    if a.2.1 = b.2.1 then charListLe a.2.2.data b.2.2.data else decide (b.2.1 < a.2.1)
  else decide (a.1 < b.1)

/-- `_extract_mentioned_restaurant_names`: scan the catalog names (limit
500) for substring occurrences in the lower-cased text, order by
(first index, longest first, name), deduplicate case-insensitively, cap
at 5. -/
def extract_mentioned_restaurant_names (db : DB) (text : String) : List String :=
  let lowered := pyLower text
  if pyStrip lowered = "" then []
  else
    let names := (db.catalog.map (·.name)).take 500
    let found : List (Nat × Nat × String) := names.filterMap (fun raw_name =>
      let name := pyStrip raw_name
      if name = "" then none
      else
        match strFind lowered (pyLower name) with
        | some idx => some (idx, name.length, name)
        | none => none)
    if found.isEmpty then []
    else
      let sorted := found.insertionSort (fun a b => matchTripleLe a b = true)
      (dedupByLowerGo [] (sorted.map (·.2.2))).take 5

/-- `_extract_latest_ranked_names`. -/
def extract_latest_ranked_names (db : DB) (history : List ConversationTurn) : List String :=
  let assistant_message :=
    ((history.reverse.find? (fun t => t.role = "assistant")).map (·.content)).getD ""
  if assistant_message = "" then []
  else
    let ranked := extract_ranked_names assistant_message
    if ¬ ranked.isEmpty then ranked
    else extract_mentioned_restaurant_names db assistant_message

/-- `_infer_context_names_from_previous_user_query`. -/
def infer_context_names_from_previous_user_query (db : DB)
    (history : List ConversationTurn) (preferences : Preference) : List String :=
  let previous_user_message :=
    ((history.reverse.find? (fun t => t.role = "user")).map (·.content)).getD ""
  if pyStrip previous_user_message = "" then []
  else
    let intent := extract_intent_heuristic previous_user_message preferences
    let has_structured_filters :=
      ¬ intent.cuisines.isEmpty || optTruthy intent.location || optTruthy intent.price_range ||
        ¬ intent.dietary_needs.isEmpty || ¬ intent.ambiance.isEmpty
    if ¬ has_structured_filters then []
    else
      ((search_and_rank_restaurants db intent preferences).take 3).filterMap
        (fun row => if row.restaurant.name ≠ "" then some row.restaurant.name else none)

/-- `_has_reference_hint`. -/
def has_reference_hint (message : String) (ranked_names : List String) : Bool :=
  let lowered := pyLower message
  ranked_names.any (fun name => strContains lowered (pyLower name)) ||
  pronounFollowupTokens.any (fun tok => strContains lowered tok) ||
  (ordinalHints.map (·.1)).any (fun tok => strContains lowered tok) ||
  strContains lowered "last one" || strContains lowered "that one" ||
  strContains lowered "this one"

/-- `_looks_like_new_search_request`. -/
def looks_like_new_search_request (message : String) : Bool :=
  let lowered := pyLower message
  let has_search_verb := newSearchHints.any (fun tok => strContains lowered tok)
  let has_reference := pronounFollowupTokens.any (fun tok => strContains lowered tok) ||
    (ordinalHints.map (·.1)).any (fun tok => strContains lowered tok)
  has_search_verb && ¬ has_reference

/-- `_build_followup_clarification_reply`. -/
def build_followup_clarification_reply (ranked_names : List String) : String :=
  if ranked_names.isEmpty then
    "Could you tell me which restaurant you mean? " ++
      "You can mention the name or say first/second."
  else
    "I can help with details, but I need the target restaurant. " ++
      "Do you mean: " ++ String.intercalate ", " (ranked_names.take 3) ++
      "? You can say first/second or the exact name."

/-- The `by_name` dict lookup in `_build_followup_suggestions` (later
entries overwrite earlier ones, so the last matching row wins). -/
def byNameLookup (restaurants : List Restaurant) (name : String) : Option Restaurant :=
  (restaurants.filter (fun r => r.name ≠ "" && pyLower r.name = pyLower name)).getLast?

/-- `_build_followup_suggestions`. -/
def build_followup_suggestions (db : DB) (ranked_names : List String) : List SuggestedRestaurant :=
  if ranked_names.isEmpty then []
  else
    let restaurants := (db.catalog.filter
      (fun r => (ranked_names.take 3).any (fun name => ilikeEq r.name name))).take 10
    if restaurants.isEmpty then []
    else
      let matched := (ranked_names.take 3).filterMap (byNameLookup restaurants)
      let ordered := if matched.isEmpty then restaurants.take 3 else matched
      ordered.map (fun r =>
        { id := r.id, name := r.name, reason := "From your recent recommendation list"
          average_rating := some (db.ratings r.id).1, pricing_tier := r.pricing_tier
          cuisine_type := r.cuisine_type, city := some r.city })

/-- `_handle_attribute_followup` (Tavily absent; the DB name lookup
`name.ilike(referenced.strip()) LIMIT 1` is the first case-insensitive
exact match in catalog order). -/
def handle_attribute_followup (db : DB) (message : String)
    (history : List ConversationTurn) (preferences : Preference) : Option AIChatResponse :=
  let followup_type := detect_followup_type message
  let rn0 := extract_latest_ranked_names db history
  let ranked_names :=
    if rn0.isEmpty then infer_context_names_from_previous_user_query db history preferences
    else rn0
  if looks_like_new_search_request message then none
  else if followup_type.isSome && ranked_names.isEmpty then
    some { reply := "I can help with that, but I need the target restaurant first. " ++
             "Please mention the name, or ask for a new recommendation."
           suggested_restaurants := [] }
  else if ranked_names.isEmpty then none
  else
    let has_hint := has_reference_hint message ranked_names
    if followup_type.isNone && ¬ has_hint then none
    else
      let referenced0 := extract_referenced_restaurant_name message ranked_names
      let referenced :=
        match referenced0 with
        | some n => some n
        | none =>
          if followup_type.isSome && ranked_names.length = 1 then ranked_names.head? else none
      match referenced with
      | none =>
        some { reply := build_followup_clarification_reply ranked_names
               suggested_restaurants := build_followup_suggestions db (ranked_names.take 3) }
      | some referenced_name =>
        match (db.catalog.filter (fun r => ilikeEq r.name (pyStrip referenced_name))).head? with
        | none =>
          some { reply := build_followup_clarification_reply ranked_names
                 suggested_restaurants := build_followup_suggestions db (ranked_names.take 3) }
        | some restaurant =>
          let avg := (db.ratings restaurant.id).1
          let cnt := (db.ratings restaurant.id).2
          let ft := followup_type.getD "summary"
          let rr := build_attribute_followup_reply restaurant ft avg cnt
          some { reply := rr.1
                 suggested_restaurants :=
                   [{ id := restaurant.id, name := restaurant.name, reason := rr.2
                      average_rating := some avg, pricing_tier := restaurant.pricing_tier
                      cuisine_type := restaurant.cuisine_type, city := some restaurant.city }] }

/-- `_build_suggestion` with no Tavily snippets. -/
def build_suggestion (item : RankedRow) : SuggestedRestaurant :=
  let reasons := item.reasons.take 2
  let reason := if reasons.isEmpty then "Relevant to your query and profile"
    else String.intercalate "; " reasons
  { id := item.restaurant.id, name := item.restaurant.name, reason := reason
    average_rating := some item.average_rating
    pricing_tier := item.restaurant.pricing_tier
    cuisine_type := item.restaurant.cuisine_type
    city := some item.restaurant.city }

/-- `_build_fallback_reply` (the deterministic reply used whenever the LLM
composer is absent or fails). -/
def build_fallback_reply (suggestions : List SuggestedRestaurant) : String :=
  if suggestions.isEmpty then
    "I couldn\x27t find a strong match yet. Try adding cuisine, budget ($-$$$$), " ++
      "or location so I can narrow recommendations."
  else
    let numbered := (suggestions.take 3).enum.map (fun is =>
      let s := is.2
      let meta :=
        (match s.average_rating with
         | some a => if a ≠ 0 then [fmt1 a ++ "★"] else []
         | none => []) ++
        (match s.pricing_tier with
         | some p => if p ≠ "" then [p] else []
         | none => [])
      let suffix := if meta.isEmpty then "" else " (" ++ String.intercalate ", " meta ++ ")"
      toString (is.1 + 1) ++ ". " ++ s.name ++ suffix ++ " - " ++ s.reason)
    String.intercalate "\n" ("Here are top matches based on your preferences and query:" :: numbered)

/-- `generate_chat_response` with every optional provider absent/failing:
`ServiceBadRequest` is the `.error` case. -/
def generate_chat_response (db : DB) (user_id : Nat) (message : String)
    (conversation_history : List ConversationTurn) : Except String AIChatResponse :=
  let clean_message := pyStrip message
  if clean_message = "" then .error "Message cannot be empty."
  else
    let preferences := db.prefsFor user_id
    match handle_attribute_followup db clean_message conversation_history preferences with
    | some followup => .ok followup
    | none =>
      let intent := extract_intent clean_message conversation_history preferences
      let ranked := search_and_rank_restaurants db intent preferences
      let top_ranked := ranked.take 5
      let suggestions := top_ranked.map build_suggestion
      let reply := build_fallback_reply suggestions
      .ok { reply := reply, suggested_restaurants := suggestions }

/-- The ranking order as a proposition: non-increasing lexicographic on
`(score, average_rating, review_count)`. -/
def rankKeyGe (a b : RankedRow) : Prop :=
  b.score < a.score ∨ (b.score = a.score ∧
    (b.average_rating < a.average_rating ∨ (b.average_rating = a.average_rating ∧
      b.review_count ≤ a.review_count)))

lemma keyGe_iff (a b : RankedRow) : keyGe a b = true ↔ rankKeyGe a b := by
  unfold keyGe rankKeyGe
  split_ifs with h1 h2
  · simp [h1, h2]
  · simp only [h1, decide_eq_true_eq, lt_self_iff_false, false_or, true_and]
    constructor
    · exact fun h => Or.inl h
    · rintro (h | ⟨h, _⟩)
      · exact h
      · exact absurd h.symm h2
  · simp only [decide_eq_true_eq]
    constructor
    · exact fun h => Or.inl h
    · rintro (h | ⟨h, _⟩)
      · exact h
      · exact absurd h.symm h1

lemma rankKeyGe_trans (a b c : RankedRow) (hab : rankKeyGe a b) (hbc : rankKeyGe b c) :
    rankKeyGe a c := by
  unfold rankKeyGe at *
  rcases hab with h1 | ⟨h1, h1'⟩ <;> rcases hbc with h2 | ⟨h2, h2'⟩
  · exact Or.inl (h2.trans h1)
  · exact Or.inl (h2 ▸ h1)
  · exact Or.inl (h1 ▸ h2)
  · refine Or.inr ⟨h2.trans h1, ?_⟩
    rcases h1' with h3 | ⟨h3, h3'⟩ <;> rcases h2' with h4 | ⟨h4, h4'⟩
    · exact Or.inl (h4.trans h3)
    · exact Or.inl (h4 ▸ h3)
    · exact Or.inl (h3 ▸ h4)
    · exact Or.inr ⟨h4.trans h3, h4'.trans h3'⟩

lemma rankKeyGe_total (a b : RankedRow) : rankKeyGe a b ∨ rankKeyGe b a := by
  unfold rankKeyGe
  rcases lt_trichotomy a.score b.score with h | h | h
  · exact Or.inr (Or.inl h)
  · rcases lt_trichotomy a.average_rating b.average_rating with h' | h' | h'
    · exact Or.inr (Or.inr ⟨h, Or.inl h'⟩)
    · rcases Nat.le_total b.review_count a.review_count with h'' | h''
      · exact Or.inl (Or.inr ⟨h.symm, Or.inr ⟨h'.symm, h''⟩⟩)
      · exact Or.inr (Or.inr ⟨h, Or.inr ⟨h', h''⟩⟩)
    · exact Or.inl (Or.inr ⟨h.symm, Or.inl h'⟩)
  · exact Or.inl (Or.inl h)

lemma keyGe_sorted (rows : List RankedRow) :
    (rows.insertionSort (fun a b => keyGe a b = true)).Pairwise rankKeyGe := by
  have trans : IsTrans RankedRow (fun a b => keyGe a b = true) := by
    refine ⟨fun a b c hab hbc => ?_⟩
    exact (keyGe_iff a c).2 (rankKeyGe_trans a b c ((keyGe_iff a b).1 hab) ((keyGe_iff b c).1 hbc))
  have total : IsTotal RankedRow (fun a b => keyGe a b = true) := by
    refine ⟨fun a b => ?_⟩
    rcases rankKeyGe_total a b with h | h
    · exact Or.inl ((keyGe_iff a b).2 h)
    · exact Or.inr ((keyGe_iff b a).2 h)
  have h := @List.sorted_insertionSort RankedRow (fun a b => keyGe a b = true) _ total trans rows
  exact h.imp (fun hab => (keyGe_iff _ _).1 hab)

/-- C2: every list returned by `_search_and_rank_restaurants` is sorted in
non-increasing lexicographic order of `(score, average_rating,
review_count)`, ties broken by the same tuple (the sort is stable, so full
ties keep candidate order).  Determinism on identical inputs is definitional
here: the embedding is a pure function of `(db, intent, preferences)`. -/
theorem C2_ranking_sorted_deterministic (db : DB) (intent : Intent) (preferences : Preference) :
    (search_and_rank_restaurants db intent preferences).Pairwise rankKeyGe := by
  unfold search_and_rank_restaurants
  dsimp only
  repeat' split
  all_goals first | exact List.Pairwise.nil | exact keyGe_sorted _

/-- The candidate set actually ranked, after the two fallback rules of
`_search_and_rank_restaurants`. -/
def selected_candidates (db : DB) (intent : Intent) : List Restaurant :=
  let q := candidate_query db intent
  if q.isEmpty && !intent.cuisines.isEmpty then []
  else if q.isEmpty then db.catalog.take 60 else q

lemma map_restaurant_rankRows (db : DB) (intent : Intent) (preferences : Preference)
    (rs : List Restaurant) : (rankRows db intent preferences rs).map (·.restaurant) = rs := by
  induction rs with
  | nil => rfl
  | cons r t ih => simpa [rankRows] using ih

lemma search_eq_sort_selected (db : DB) (intent : Intent) (preferences : Preference) :
    search_and_rank_restaurants db intent preferences =
      (rankRows db intent preferences (selected_candidates db intent)).insertionSort
        (fun a b => keyGe a b = true) := by
  unfold search_and_rank_restaurants selected_candidates
  dsimp only
  by_cases h1 : ((candidate_query db intent).isEmpty && !intent.cuisines.isEmpty) = true
  · rw [if_pos h1, if_pos h1]
    simp [rankRows]
  · rw [if_neg h1, if_neg h1]
    by_cases h2 : (if (candidate_query db intent).isEmpty = true then db.catalog.take 60
        else candidate_query db intent).isEmpty = true
    · rw [if_pos h2, List.isEmpty_iff.mp h2]
      simp [rankRows]
    · rw [if_neg h2]

/-- C3 (amended): if cuisines were explicitly requested and the filtered
query returns zero rows, the result is empty; in every other case where
the filtered query returns zero rows — including a location-only or
keyword-only filter matching nothing, not just the no-filter case — the
code falls back to ranking the unfiltered catalog scan capped at 60; and a
non-empty filtered query is ranked as-is. -/
theorem C3_fallback_policy (db : DB) (intent : Intent) (preferences : Preference) :
    (intent.cuisines ≠ [] → candidate_query db intent = [] →
      search_and_rank_restaurants db intent preferences = []) ∧
    (intent.cuisines = [] → candidate_query db intent = [] →
      search_and_rank_restaurants db intent preferences =
        (rankRows db intent preferences (db.catalog.take 60)).insertionSort
          (fun a b => keyGe a b = true)) ∧
    (candidate_query db intent ≠ [] →
      search_and_rank_restaurants db intent preferences =
        (rankRows db intent preferences (candidate_query db intent)).insertionSort
          (fun a b => keyGe a b = true)) := by
  refine ⟨fun hc hq => ?_, fun hc hq => ?_, fun hq => ?_⟩
  · rw [search_eq_sort_selected]
    unfold selected_candidates
    rw [hq]
    simp [List.isEmpty_iff, hc, rankRows]
  · rw [search_eq_sort_selected]
    unfold selected_candidates
    rw [hq]
    simp [hc]
  · rw [search_eq_sort_selected]
    unfold selected_candidates
    have h : (candidate_query db intent).isEmpty = false := by
      cases h' : (candidate_query db intent).isEmpty
      · rfl
      · exact absurd (List.isEmpty_iff.mp h') hq
    simp [h]

/-- A one-restaurant catalog used by the concrete counterexamples. -/
def parisRow : Restaurant :=
  { id := 1, name := "P1", cuisine_type := some "french", description := none
    street := none, city := "Paris", state := none, zip_code := none
    phone := none, email := none, pricing_tier := none, hours_json := none
    amenities := none }

/-- Single-row database with no reviews and no saved preferences. -/
def parisDB : DB :=
  { catalog := [parisRow], ratings := fun _ => (0, 0), prefsFor := fun _ => emptyPreference }

/-- A location-only intent (`location="Tokyo"`) matching zero rows. -/
def tokyoIntent : Intent :=
  { cuisines := [], price_range := none, location := some "Tokyo"
    dietary_needs := [], ambiance := [], keywords := [], occasion := none }

/-- An explicit-cuisine intent matching zero rows. -/
def klingonIntent : Intent :=
  { cuisines := ["klingon"], price_range := none, location := none
    dietary_needs := [], ambiance := [], keywords := [], occasion := none }

/-- C3 counterexample: with a location-only filter matching zero rows the
claim requires the (empty) filtered result to be returned, but the code
falls back to the unfiltered catalog scan: the filtered query is empty,
yet the ranked result still contains `P1`. -/
theorem C3_counterexample :
    candidate_query parisDB tokyoIntent = [] ∧
      (search_and_rank_restaurants parisDB tokyoIntent emptyPreference).map
        (fun row => row.restaurant.name) = ["P1"] := by
  constructor
  · decide
  · rfl

/-- C3 witness: the amended theorem applied to the explicit-cuisine
zero-row case gives the empty result. -/
theorem C3_fallback_policy_witness :
    search_and_rank_restaurants parisDB klingonIntent emptyPreference = [] :=
  (C3_fallback_policy parisDB klingonIntent emptyPreference).1 (by decide) (by decide)

lemma candidatePred_no_keywords (intent : Intent)
    (h : intent.cuisines ≠ [] ∨ optTruthy intent.location = true) (r : Restaurant) :
    candidatePred intent r = candidatePred { intent with keywords := [] } r := by
  have h3 : (!intent.cuisines.isEmpty || optTruthy intent.location) = true := by
    rcases h with h | h
    · have h' : intent.cuisines.isEmpty = false := by
        cases h'' : intent.cuisines.isEmpty
        · rfl
        · exact absurd (List.isEmpty_iff.mp h'') h
      simp [h']
    · simp [h]
  unfold candidatePred
  simp [h3]

lemma candidate_query_no_keywords (db : DB) (intent : Intent)
    (h : intent.cuisines ≠ [] ∨ optTruthy intent.location = true) :
    candidate_query db intent = candidate_query db { intent with keywords := [] } := by
  unfold candidate_query
  congr 1
  exact List.filter_congr (fun r _ => candidatePred_no_keywords intent h r)

/-- C7: the free-text keyword OR-filter constrains the candidate query
exactly when the intent has no cuisines and no (truthy) location.  When a
cuisine or location filter is present, erasing the keywords leaves the
candidate query unchanged and the final ranked result contains the same
restaurants (keywords still contribute +0.6 score bonuses, so only the
order within the same candidate set may change); when both are absent,
the candidate query is precisely the catalog filtered by the keyword
OR-predicate (capped at 60). -/
theorem C7_keyword_filter_scope (db : DB) (intent : Intent) (preferences : Preference) :
    ((intent.cuisines ≠ [] ∨ optTruthy intent.location = true) →
      candidate_query db intent = candidate_query db { intent with keywords := [] } ∧
      ((search_and_rank_restaurants db intent preferences).map (·.restaurant)).Perm
        ((search_and_rank_restaurants db { intent with keywords := [] } preferences).map
          (·.restaurant))) ∧
    (intent.cuisines = [] → optTruthy intent.location = false →
      candidate_query db intent = (db.catalog.filter (fun r =>
        if !intent.keywords.isEmpty then keywordClausePred intent.keywords r else true)).take 60) := by
  constructor
  · intro h
    have hq := candidate_query_no_keywords db intent h
    refine ⟨hq, ?_⟩
    rw [search_eq_sort_selected, search_eq_sort_selected]
    have hsel : selected_candidates db { intent with keywords := [] } =
        selected_candidates db intent := by
      unfold selected_candidates
      rw [hq]
    rw [hsel]
    have p1 := (List.perm_insertionSort (fun a b => keyGe a b = true)
      (rankRows db intent preferences (selected_candidates db intent))).map (·.restaurant)
    have p2 := (List.perm_insertionSort (fun a b => keyGe a b = true)
      (rankRows db { intent with keywords := [] } preferences
        (selected_candidates db intent))).map (·.restaurant)
    rw [map_restaurant_rankRows] at p1 p2
    exact p1.trans p2.symm
  · intro hc hl
    unfold candidate_query
    congr 1
    apply List.filter_congr
    intro r _
    unfold candidatePred
    cases hloc : intent.location with
    | none => simp [hc, optTruthy]
    | some l =>
      have hl' : l = "" := by
        rw [hloc] at hl
        simpa [optTruthy] using hl
      simp [hc, hl', optTruthy]

/-- The explicit-cuisine match condition of `_score_restaurant`
(`wanted_cuisines and any(c in restaurant_cuisine ...)`). -/
def explicitCuisineMatch (intent : Intent) (r : Restaurant) : Bool :=
  !(intent.cuisines.map pyLower).isEmpty &&
    (intent.cuisines.map pyLower).any (fun c => strContains (pyLower (r.cuisine_type.getD "")) c)

/-- The saved-preference cuisine match condition of `_score_restaurant`. -/
def prefCuisineMatch (preferences : Preference) (r : Restaurant) : Bool :=
  !(preferences.cuisines.map pyLower).isEmpty &&
    (preferences.cuisines.map pyLower).any (fun c => strContains (pyLower (r.cuisine_type.getD "")) c)

lemma score_restaurant_cuisine_split (r : Restaurant) (avg : ℚ) (cnt : Nat)
    (intent : Intent) (preferences : Preference) :
    score_restaurant r avg cnt intent preferences =
      (if explicitCuisineMatch intent r then
        ((score_restaurant r avg cnt { intent with cuisines := [] }
            { preferences with cuisines := [] }).1 + 4,
         "Matches your cuisine request" ::
           (score_restaurant r avg cnt { intent with cuisines := [] }
             { preferences with cuisines := [] }).2)
      else if prefCuisineMatch preferences r then
        ((score_restaurant r avg cnt { intent with cuisines := [] }
            { preferences with cuisines := [] }).1 + 2,
         "Matches your saved cuisine preferences" ::
           (score_restaurant r avg cnt { intent with cuisines := [] }
             { preferences with cuisines := [] }).2)
      else score_restaurant r avg cnt { intent with cuisines := [] }
            { preferences with cuisines := [] }) := by
  unfold score_restaurant explicitCuisineMatch prefCuisineMatch
  dsimp only
  simp only [List.map_nil, List.isEmpty_nil, Bool.not_true, Bool.false_and, Bool.false_eq_true,
    if_false]
  by_cases h1 : (!(intent.cuisines.map pyLower).isEmpty &&
      (intent.cuisines.map pyLower).any (fun c => strContains (pyLower (r.cuisine_type.getD "")) c)) = true
  · rw [if_pos h1, if_pos h1]
    refine Prod.ext ?_ ?_
    · dsimp only
      ring
    · dsimp only
      try simp
  · rw [if_neg h1, if_neg h1]
    by_cases h2 : (!(preferences.cuisines.map pyLower).isEmpty &&
        (preferences.cuisines.map pyLower).any (fun c => strContains (pyLower (r.cuisine_type.getD "")) c)) = true
    · rw [if_pos h2, if_pos h2]
      refine Prod.ext ?_ ?_
      · dsimp only
        ring
      · dsimp only
        try simp
    · simp only [if_neg h2]

/-- C6: the cuisine bonus is exclusive — when an explicitly-requested
cuisine matches, the saved-preference cuisines contribute nothing (no
stacking) and the score is the cuisine-free score plus exactly 4; when
only a saved-preference cuisine matches, it is the cuisine-free score plus
exactly 2; and for a restaurant matching both, dropping the explicit
request strictly lowers the score (the +4 exceeds the +2). -/
theorem C6_cuisine_bonus_exclusive (r : Restaurant) (avg : ℚ) (cnt : Nat) (intent : Intent)
    (preferences : Preference) :
    (explicitCuisineMatch intent r = true →
      score_restaurant r avg cnt intent preferences =
        score_restaurant r avg cnt intent { preferences with cuisines := [] }) ∧
    (explicitCuisineMatch intent r = true →
      (score_restaurant r avg cnt intent preferences).1 =
        (score_restaurant r avg cnt { intent with cuisines := [] }
          { preferences with cuisines := [] }).1 + 4) ∧
    (explicitCuisineMatch intent r = false → prefCuisineMatch preferences r = true →
      (score_restaurant r avg cnt intent preferences).1 =
        (score_restaurant r avg cnt { intent with cuisines := [] }
          { preferences with cuisines := [] }).1 + 2) ∧
    (explicitCuisineMatch intent r = true → prefCuisineMatch preferences r = true →
      (score_restaurant r avg cnt { intent with cuisines := [] } preferences).1 <
        (score_restaurant r avg cnt intent preferences).1) := by
  have hErasedExplicit : explicitCuisineMatch { intent with cuisines := [] } r = false := by
    simp [explicitCuisineMatch]
  refine ⟨?_, ?_, ?_, ?_⟩
  · intro h
    rw [score_restaurant_cuisine_split r avg cnt intent preferences,
      score_restaurant_cuisine_split r avg cnt intent { preferences with cuisines := [] }]
    rw [if_pos h, if_pos h]
  · intro h
    rw [score_restaurant_cuisine_split r avg cnt intent preferences, if_pos h]
  · intro h1 h2
    rw [score_restaurant_cuisine_split r avg cnt intent preferences,
      if_neg (by simp [h1]), if_pos h2]
  · intro h1 h2
    rw [score_restaurant_cuisine_split r avg cnt intent preferences,
      score_restaurant_cuisine_split r avg cnt { intent with cuisines := [] } preferences,
      if_pos h1, if_neg (by simp [hErasedExplicit]), if_pos h2]
    dsimp only
    linarith

/-- Restaurant matching both an explicit and a preference cuisine. -/
def italianRow : Restaurant :=
  { id := 7, name := "Trattoria", cuisine_type := some "italian", description := none
    street := none, city := "San Jose", state := none, zip_code := none
    phone := none, email := none, pricing_tier := none, hours_json := none
    amenities := none }

/-- Intent explicitly requesting italian. -/
def italianIntent : Intent :=
  { cuisines := ["italian"], price_range := none, location := none
    dietary_needs := [], ambiance := [], keywords := [], occasion := none }

/-- Preferences with italian saved. -/
def italianPrefs : Preference :=
  { cuisines := ["italian"], price_range := none, preferred_locations := []
    dietary_needs := [], ambiance := [], sort_preference := "rating" }

/-- C6 witness: for a restaurant matching both the explicit request and
the saved preference, the preference cuisines contribute nothing, and
dropping the explicit request strictly lowers the score. -/
theorem C6_cuisine_bonus_exclusive_witness :
    score_restaurant italianRow 0 0 italianIntent italianPrefs =
      score_restaurant italianRow 0 0 italianIntent { italianPrefs with cuisines := [] } ∧
    (score_restaurant italianRow 0 0 { italianIntent with cuisines := [] } italianPrefs).1 <
      (score_restaurant italianRow 0 0 italianIntent italianPrefs).1 :=
  ⟨(C6_cuisine_bonus_exclusive italianRow 0 0 italianIntent italianPrefs).1 (by decide),
   (C6_cuisine_bonus_exclusive italianRow 0 0 italianIntent italianPrefs).2.2.2
     (by decide) (by decide)⟩

/-- The all-empty intent record. -/
def emptyIntent : Intent :=
  { cuisines := [], price_range := none, location := none
    dietary_needs := [], ambiance := [], keywords := [], occasion := none }

/-- C8 (amended): the trailing informational reason `Rated X★ from N
review(s)` is appended exactly when `average_rating > 0` (not when
`review_count > 0`: a `(0.0, N)` aggregate gets no trailing reason), and
the rating aggregate never affects the score beyond the base formula
`avg*0.9 + min(count,40)*0.05` — in particular appending the reason
changes no score. -/
theorem C8_rating_reason_trailing (r : Restaurant) (avg : ℚ) (cnt : Nat) (intent : Intent)
    (preferences : Preference) :
    (score_restaurant r avg cnt intent preferences).1 =
      (score_restaurant r 0 0 intent preferences).1 + avg * 0.9 + ((min cnt 40 : ℕ) : ℚ) * 0.05 ∧
    (score_restaurant r avg cnt intent preferences).2 =
      (score_restaurant r 0 0 intent preferences).2 ++
        (if 0 < avg then [ratedReason avg cnt] else []) := by
  constructor
  · unfold score_restaurant
    dsimp only
    have hmin : ((min 0 40 : ℕ) : ℚ) = 0 := by norm_num
    rw [hmin]
    ring
  · unfold score_restaurant
    dsimp only
    simp [lt_irrefl]

/-- C8 counterexample: a rating aggregate with `review_count = 3 > 0` but
`average_rating = 0.0` produces no trailing `Rated ...` reason at all
(the claim requires one whenever `review_count > 0`, including
`average_rating = 0.0`). -/
theorem C8_counterexample :
    (score_restaurant parisRow 0 3 emptyIntent emptyPreference).2 = [] := by decide

lemma toNat_ofNat_lowerRange (n : Nat) (h1 : 97 ≤ n) (h2 : n ≤ 122) :
    (Char.ofNat n).toNat = n := by
  interval_cases n <;> rfl

lemma pyLowerChar_toNat_upper (c : Char) (h : 65 ≤ c.toNat ∧ c.toNat ≤ 90) :
    (pyLowerChar c).toNat = c.toNat + 32 := by
  unfold pyLowerChar
  rw [if_pos h]
  exact toNat_ofNat_lowerRange _ (by omega) (by omega)

lemma pyLowerChar_idem (c : Char) : pyLowerChar (pyLowerChar c) = pyLowerChar c := by
  by_cases h : 65 ≤ c.toNat ∧ c.toNat ≤ 90
  · have ht := pyLowerChar_toNat_upper c h
    have h2 : ¬(65 ≤ (pyLowerChar c).toNat ∧ (pyLowerChar c).toNat ≤ 90) := by
      rw [ht]; omega
    conv_lhs => rw [pyLowerChar]
    rw [if_neg h2]
  · simp only [pyLowerChar, if_neg h]

lemma isWhitespace_eq_false_of_toNat (c : Char) (h : 33 ≤ c.toNat) :
    c.isWhitespace = false := by
  have h1 : c ≠ ' ' := fun e => by subst e; exact absurd h (by decide)
  have h2 : c ≠ '\t' := fun e => by subst e; exact absurd h (by decide)
  have h3 : c ≠ '\r' := fun e => by subst e; exact absurd h (by decide)
  have h4 : c ≠ '\n' := fun e => by subst e; exact absurd h (by decide)
  simp [Char.isWhitespace, h1, h2, h3, h4]

lemma isWhitespace_pyLowerChar (c : Char) :
    (pyLowerChar c).isWhitespace = c.isWhitespace := by
  by_cases h : 65 ≤ c.toNat ∧ c.toNat ≤ 90
  · rw [isWhitespace_eq_false_of_toNat _ (by rw [pyLowerChar_toNat_upper c h]; omega),
      isWhitespace_eq_false_of_toNat _ (by omega)]
  · simp only [pyLowerChar, if_neg h]

lemma pyLower_pyLower (s : String) : pyLower (pyLower s) = pyLower s := by
  unfold pyLower
  have : (pyLowerChar ∘ pyLowerChar) = pyLowerChar := funext pyLowerChar_idem
  simp [List.map_map, this]

lemma dropWhile_dropWhile (p : α → Bool) (l : List α) :
    (l.dropWhile p).dropWhile p = l.dropWhile p := by
  induction l with
  | nil => rfl
  | cons a t ih =>
    by_cases h : p a
    · simp [List.dropWhile_cons, h, ih]
    · simp [List.dropWhile_cons, h]

lemma dropWhile_reverse_dropWhile (p : α → Bool) (l : List α) (h : l.dropWhile p = l) :
    ((l.reverse.dropWhile p).reverse).dropWhile p = (l.reverse.dropWhile p).reverse := by
  cases l with
  | nil => rfl
  | cons a t =>
    have ha : p a = false := by
      by_cases hp : p a
      · rw [List.dropWhile_cons, if_pos hp] at h
        have := congrArg List.length h
        have hle := (List.dropWhile_sublist (l := t) p).length_le
        simp at this
        omega
      · exact Bool.not_eq_true _ ▸ (by simpa using hp)
    rw [List.reverse_cons, List.dropWhile_append]
    by_cases hX : (t.reverse.dropWhile p).isEmpty
    · simp only [hX, if_pos]
      rw [List.dropWhile_cons, ha]
      simp [ha]
    · simp only [hX, if_neg, Bool.false_eq_true, not_false_iff]
      rw [List.reverse_append]
      simp only [List.reverse_cons, List.reverse_nil, List.nil_append, List.singleton_append]
      rw [List.dropWhile_cons, ha]
      simp

lemma pyStripList_idem (l : List Char) : pyStripList (pyStripList l) = pyStripList l := by
  unfold pyStripList
  have hA : (l.dropWhile Char.isWhitespace).dropWhile Char.isWhitespace
      = l.dropWhile Char.isWhitespace := dropWhile_dropWhile _ l
  set A := l.dropWhile Char.isWhitespace with hAdef
  have step1 := dropWhile_reverse_dropWhile Char.isWhitespace A hA
  rw [step1, List.reverse_reverse, dropWhile_dropWhile]

lemma pyStrip_pyStrip (s : String) : pyStrip (pyStrip s) = pyStrip s := by
  unfold pyStrip
  exact congrArg String.mk (pyStripList_idem s.data)

lemma pyStripList_map_pyLowerChar (l : List Char) :
    pyStripList (l.map pyLowerChar) = (pyStripList l).map pyLowerChar := by
  unfold pyStripList
  have hw : (Char.isWhitespace ∘ pyLowerChar) = Char.isWhitespace := funext isWhitespace_pyLowerChar
  rw [List.dropWhile_map, hw, ← List.map_reverse, List.dropWhile_map, hw, ← List.map_reverse]

lemma pyStrip_pyLower (s : String) : pyStrip (pyLower s) = pyLower (pyStrip s) := by
  unfold pyStrip pyLower
  exact congrArg String.mk (pyStripList_map_pyLowerChar s.data)

lemma clean_token_fixed (raw : String) :
    pyStrip (pyLower (pyStrip raw)) = pyLower (pyStrip raw) ∧
      pyLower (pyLower (pyStrip raw)) = pyLower (pyStrip raw) := by
  constructor
  · rw [pyStrip_pyLower, pyStrip_pyStrip]
  · rw [pyLower_pyLower]

lemma mem_cleanListGo (values : List String) : ∀ (seen : List String) (x : String),
    x ∈ cleanListGo seen values → pyStrip x ≠ "" ∧ pyStrip x = x ∧ pyLower x = x := by
  induction values with
  | nil => intro seen x h; simp [cleanListGo] at h
  | cons raw rest ih =>
    intro seen x h
    unfold cleanListGo at h
    by_cases hc : (pyLower (pyStrip raw) = "" ∨ seen.contains (pyLower (pyStrip raw)))
    · rw [if_pos hc] at h
      exact ih seen x h
    · rw [if_neg hc] at h
      rcases List.mem_cons.mp h with rfl | hmem
      · have hne : pyLower (pyStrip raw) ≠ "" := fun e => hc (Or.inl e)
        refine ⟨?_, (clean_token_fixed raw).1, (clean_token_fixed raw).2⟩
        rw [(clean_token_fixed raw).1]
        exact hne
      · exact ih _ x hmem

lemma cleanListGo_not_mem_seen (values : List String) : ∀ (seen : List String) (x : String),
    x ∈ cleanListGo seen values → seen.contains x = false := by
  induction values with
  | nil => intro seen x h; simp [cleanListGo] at h
  | cons raw rest ih =>
    intro seen x h
    unfold cleanListGo at h
    by_cases hc : (pyLower (pyStrip raw) = "" ∨ seen.contains (pyLower (pyStrip raw)))
    · rw [if_pos hc] at h
      exact ih seen x h
    · rw [if_neg hc] at h
      rcases List.mem_cons.mp h with rfl | hmem
      · cases hs : seen.contains (pyLower (pyStrip raw))
        · rfl
        · exact absurd (Or.inr hs) hc
      · have h' := ih _ x hmem
        simp only [List.contains_cons, Bool.or_eq_false_iff] at h'
        exact h'.2

lemma cleanListGo_nodup (values : List String) : ∀ (seen : List String),
    (cleanListGo seen values).Nodup := by
  induction values with
  | nil => intro seen; simp [cleanListGo]
  | cons raw rest ih =>
    intro seen
    unfold cleanListGo
    by_cases hc : (pyLower (pyStrip raw) = "" ∨ seen.contains (pyLower (pyStrip raw)))
    · rw [if_pos hc]
      exact ih seen
    · rw [if_neg hc]
      refine List.nodup_cons.mpr ⟨?_, ih _⟩
      intro hmem
      have h' := cleanListGo_not_mem_seen rest _ _ hmem
      simp [List.contains_cons] at h'

lemma cleanList_mem (values : List String) (x : String) (h : x ∈ cleanList values) :
    pyStrip x ≠ "" ∧ pyStrip x = x ∧ pyLower x = x :=
  mem_cleanListGo values [] x h

lemma cleanList_nodup (values : List String) : (cleanList values).Nodup :=
  cleanListGo_nodup values []

lemma normalize_field_id (K : List String)
    (h : ∀ x ∈ K, pyStrip x ≠ "" ∧ pyStrip x = x ∧ pyLower x = x) :
    ((K.filter (fun v => pyStrip v ≠ "")).map (fun v => pyLower (pyStrip v))) = K := by
  have h1 : K.filter (fun v => pyStrip v ≠ "") = K :=
    List.filter_eq_self.mpr (fun a ha => by simp [(h a ha).1])
  rw [h1]
  have h2 : ∀ x ∈ K, pyLower (pyStrip x) = x := fun x hx => by
    rw [(h x hx).2.1, (h x hx).2.2]
  calc K.map (fun v => pyLower (pyStrip v)) = K.map id := List.map_congr_left h2
    _ = K := List.map_id K

/-- C9 (amended): when the LLM pass succeeds, the merged keywords are the
heuristic keywords followed by the LLM keywords, each side deduplicated
(and strip/lower-normalized) separately, truncated to 8 — duplicates are
NOT removed across the concatenation, so a keyword appearing in both
sources appears twice in the merged list. -/
theorem C9_merged_keywords_concat (llm_intent heuristic_intent : Intent) :
    (merge_intent_with_message_priority llm_intent heuristic_intent).keywords =
      (cleanList heuristic_intent.keywords ++ cleanList llm_intent.keywords).take 8 ∧
    (cleanList heuristic_intent.keywords).Nodup ∧ (cleanList llm_intent.keywords).Nodup := by
  refine ⟨?_, cleanList_nodup _, cleanList_nodup _⟩
  unfold merge_intent_with_message_priority normalize_intent
  dsimp only
  have hK : ∀ x ∈ (cleanList heuristic_intent.keywords ++ cleanList llm_intent.keywords).take 8,
      pyStrip x ≠ "" ∧ pyStrip x = x ∧ pyLower x = x := by
    intro x hx
    have hx' := List.take_subset 8 _ hx
    rcases List.mem_append.mp hx' with h | h
    · exact cleanList_mem _ _ h
    · exact cleanList_mem _ _ h
  rw [normalize_field_id _ hK, List.take_take]
  norm_num

/-- Intent whose only content is the keyword `pizza` (used both as the
heuristic and the LLM intent in the C9 counterexample). -/
def pizzaKeywordIntent : Intent :=
  { cuisines := [], price_range := none, location := none
    dietary_needs := [], ambiance := [], keywords := ["pizza"], occasion := none }

/-- C9 counterexample: a keyword present in both the heuristic and LLM
lists survives twice in the merged list — duplicates are not removed
across the concatenation as the claim states. -/
theorem C9_counterexample :
    (merge_intent_with_message_priority pizzaKeywordIntent pizzaKeywordIntent).keywords =
      ["pizza", "pizza"] := by decide

lemma pySortedSet_nodup (l : List String) : (pySortedSet l).Nodup := by
  unfold pySortedSet
  exact ((List.perm_insertionSort _ _).nodup_iff).mpr (List.nodup_dedup l)

lemma mem_pySortedSet {x : String} {l : List String} : x ∈ pySortedSet l ↔ x ∈ l := by
  unfold pySortedSet
  rw [List.mem_insertionSort, List.mem_dedup]

lemma emitBuf_chars (buf : List Char) (w : String) (h : w ∈ emitBuf buf) :
    ∀ c ∈ w.data, c ∈ buf := by
  unfold emitBuf at h
  by_cases h3 : 3 ≤ (buf.reverse.dropWhile (· = '-')).length
  · rw [if_pos h3] at h
    rcases List.mem_singleton.mp h with rfl
    intro c hc
    exact List.mem_reverse.mp (List.dropWhile_subset _ hc)
  · rw [if_neg h3] at h
    simp at h

lemma findWordsGo_chars : ∀ (l buf : List Char) (w : String), w ∈ findWordsGo buf l →
    ∀ c ∈ w.data, c ∈ buf ∨ c ∈ l := by
  intro l
  induction l with
  | nil =>
    intro buf w h c hc
    exact Or.inl (emitBuf_chars buf w h c hc)
  | cons c0 t ih =>
    intro buf w h c hc
    unfold findWordsGo at h
    by_cases hw : isWordRunChar c0 = true
    · rw [if_pos hw] at h
      rcases ih (c0 :: buf) w h c hc with hb | ht
      · rcases List.mem_cons.mp hb with rfl | hb'
        · exact Or.inr (List.mem_cons_self _ _)
        · exact Or.inl hb'
      · exact Or.inr (List.mem_cons_of_mem _ ht)
    · rw [if_neg hw] at h
      rcases List.mem_append.mp h with he | hr
      · exact Or.inl (emitBuf_chars buf w he c hc)
      · rcases ih [] w hr c hc with hb | ht
        · simp at hb
        · exact Or.inr (List.mem_cons_of_mem _ ht)

lemma pyLower_eq_self_of_chars (w : String) (h : ∀ c ∈ w.data, pyLowerChar c = c) :
    pyLower w = w := by
  unfold pyLower
  have hd : w.data.map pyLowerChar = w.data :=
    (List.map_congr_left h).trans (List.map_id _)
  rw [hd]

lemma findWords_lower_fixed (s : String) (w : String) (h : w ∈ findWords (pyLower s).data) :
    pyLower w = w := by
  apply pyLower_eq_self_of_chars
  intro c hc
  have hmem := findWordsGo_chars (pyLower s).data [] w h c hc
  rcases hmem with hb | hl
  · simp at hb
  · unfold pyLower at hl
    rcases List.mem_map.mp hl with ⟨c0, _, rfl⟩
    exact pyLowerChar_idem c0

lemma vocab_lower_fixed (prefsList defaults : List String)
    (hdef : ∀ x ∈ defaults, pyLower x = x) (x : String)
    (h : x ∈ pySortedSet ((prefsList.filter (· ≠ "")).map pyLower ++ defaults)) :
    pyLower x = x := by
  rcases List.mem_append.mp (mem_pySortedSet.mp h) with h1 | h2
  · rcases List.mem_map.mp h1 with ⟨raw, _, rfl⟩
    exact pyLower_pyLower raw
  · exact hdef x h2

lemma merged_field_props (A : List String)
    (hA : ∀ x ∈ A, pyStrip x ≠ "" ∧ pyStrip x = x ∧ pyLower x = x) (hN : A.Nodup) (n : Nat) :
    (((A.filter (fun v => pyStrip v ≠ "")).map (fun v => pyLower (pyStrip v))).take n).Nodup ∧
    (((A.filter (fun v => pyStrip v ≠ "")).map (fun v => pyLower (pyStrip v))).take n).length ≤ n ∧
    ∀ x ∈ ((A.filter (fun v => pyStrip v ≠ "")).map (fun v => pyLower (pyStrip v))).take n,
      pyLower x = x ∧ pyStrip x = x := by
  rw [normalize_field_id A hA]
  refine ⟨(List.take_sublist n A).nodup hN, List.length_take_le n A, ?_⟩
  intro x hx
  have := hA x (List.take_subset n A hx)
  exact ⟨this.2.2, this.2.1⟩

/-- C5 (amended): the final `_normalize_intent` pass runs only on the
merged (LLM-success) path.  On the heuristic-only path (provider absent)
the list fields are lower-cased, and cuisines/dietary/ambiance are
duplicate-free (being filtered sorted vocabulary sets), but they are NOT
length-capped (7 matched cuisines all survive, see the counterexample)
nor trimmed, and keywords (capped at 6) are not deduplicated.  On the
merged path every list field is lower-cased, trimmed and capped
(cuisines/dietary/ambiance at 6, keywords at 8), and
cuisines/dietary/ambiance are duplicate-free (keywords may repeat across
the two sources, cf. the `_merge_intent_with_message_priority` keywords
rule). -/
theorem C5_intent_list_normalization (message : String) (hist : List ConversationTurn)
    (preferences : Preference) (llm_intent : Intent) :
    ((extract_intent message hist preferences).cuisines.Nodup ∧
      (∀ x ∈ (extract_intent message hist preferences).cuisines, pyLower x = x) ∧
      (extract_intent message hist preferences).dietary_needs.Nodup ∧
      (∀ x ∈ (extract_intent message hist preferences).dietary_needs, pyLower x = x) ∧
      (extract_intent message hist preferences).ambiance.Nodup ∧
      (∀ x ∈ (extract_intent message hist preferences).ambiance, pyLower x = x) ∧
      (extract_intent message hist preferences).keywords.length ≤ 6 ∧
      (∀ x ∈ (extract_intent message hist preferences).keywords, pyLower x = x)) ∧
    ((merge_intent_with_message_priority llm_intent
        (extract_intent_heuristic message preferences)).cuisines.Nodup ∧
      (merge_intent_with_message_priority llm_intent
        (extract_intent_heuristic message preferences)).cuisines.length ≤ 6 ∧
      (∀ x ∈ (merge_intent_with_message_priority llm_intent
        (extract_intent_heuristic message preferences)).cuisines,
          pyLower x = x ∧ pyStrip x = x) ∧
      (merge_intent_with_message_priority llm_intent
        (extract_intent_heuristic message preferences)).dietary_needs.Nodup ∧
      (merge_intent_with_message_priority llm_intent
        (extract_intent_heuristic message preferences)).dietary_needs.length ≤ 6 ∧
      (∀ x ∈ (merge_intent_with_message_priority llm_intent
        (extract_intent_heuristic message preferences)).dietary_needs,
          pyLower x = x ∧ pyStrip x = x) ∧
      (merge_intent_with_message_priority llm_intent
        (extract_intent_heuristic message preferences)).ambiance.Nodup ∧
      (merge_intent_with_message_priority llm_intent
        (extract_intent_heuristic message preferences)).ambiance.length ≤ 6 ∧
      (∀ x ∈ (merge_intent_with_message_priority llm_intent
        (extract_intent_heuristic message preferences)).ambiance,
          pyLower x = x ∧ pyStrip x = x) ∧
      (merge_intent_with_message_priority llm_intent
        (extract_intent_heuristic message preferences)).keywords.length ≤ 8 ∧
      (∀ x ∈ (merge_intent_with_message_priority llm_intent
        (extract_intent_heuristic message preferences)).keywords,
          pyLower x = x ∧ pyStrip x = x)) := by
  constructor
  · unfold extract_intent extract_intent_heuristic
    dsimp only
    refine ⟨(pySortedSet_nodup _).filter _, ?_, (pySortedSet_nodup _).filter _, ?_,
      (pySortedSet_nodup _).filter _, ?_, List.length_take_le _ _, ?_⟩
    · intro x hx
      exact vocab_lower_fixed _ _ (by decide) x (List.mem_of_mem_filter hx)
    · intro x hx
      exact vocab_lower_fixed _ _ (by decide) x (List.mem_of_mem_filter hx)
    · intro x hx
      exact vocab_lower_fixed _ _ (by decide) x (List.mem_of_mem_filter hx)
    · intro x hx
      exact findWords_lower_fixed message x
        (List.mem_of_mem_filter (List.take_subset 6 _ hx))
  · unfold merge_intent_with_message_priority normalize_intent
    dsimp only
    have hclean : ∀ (h l : List String) (x : String),
        x ∈ (if cleanList h ≠ [] then cleanList h else cleanList l) →
          pyStrip x ≠ "" ∧ pyStrip x = x ∧ pyLower x = x := by
      intro h l x hx
      split_ifs at hx with hc
      · exact cleanList_mem _ _ hx
      · exact cleanList_mem _ _ hx
    have hnodup : ∀ (h l : List String),
        (if cleanList h ≠ [] then cleanList h else cleanList l).Nodup := by
      intro h l
      split_ifs with hc
      · exact cleanList_nodup _
      · exact cleanList_nodup _
    have hkw : ∀ x ∈ (cleanList (extract_intent_heuristic message preferences).keywords ++
        cleanList llm_intent.keywords).take 8,
        pyStrip x ≠ "" ∧ pyStrip x = x ∧ pyLower x = x := by
      intro x hx
      rcases List.mem_append.mp (List.take_subset 8 _ hx) with h | h
      · exact cleanList_mem _ _ h
      · exact cleanList_mem _ _ h
    have c1 := merged_field_props _ (hclean (extract_intent_heuristic message preferences).cuisines
      llm_intent.cuisines) (hnodup _ _) 6
    have c2 := merged_field_props _ (hclean (extract_intent_heuristic message preferences).dietary_needs
      llm_intent.dietary_needs) (hnodup _ _) 6
    have c3 := merged_field_props _ (hclean (extract_intent_heuristic message preferences).ambiance
      llm_intent.ambiance) (hnodup _ _) 6
    refine ⟨c1.1, c1.2.1, c1.2.2, c2.1, c2.2.1, c2.2.2, c3.1, c3.2.1, c3.2.2, ?_, ?_⟩
    · rw [normalize_field_id _ hkw, List.take_take]
      exact le_trans (List.length_take_le _ _) (by norm_num)
    · rw [normalize_field_id _ hkw, List.take_take]
      intro x hx
      have := hkw x (by simpa using hx)
      exact ⟨this.2.2, this.2.1⟩

/-- C4 (amended): when the only referential cue in the message is a
pronoun (no ranked name appears in it, no ordinal token, no "last", no
"top"/"best"), `_extract_referenced_restaurant_name` resolves to the FIRST
restaurant of the context list regardless of its length — with exactly one
restaurant in context that is that restaurant, but with two or more the
resolver still picks the first instead of asking for clarification. -/
theorem C4_pronoun_resolves_first (message : String) (ranked_names : List String)
    (hname : ∀ n ∈ ranked_names, strContains (pyLower message) (pyLower n) = false)
    (hord : ∀ tok ∈ ordinalHints.map (·.1), strContains (pyLower message) tok = false)
    (hlast : strContains (pyLower message) "last" = false)
    (htop : strContains (pyLower message) "top" = false)
    (hbest : strContains (pyLower message) "best" = false)
    (hpron : ∃ tok ∈ pronounFollowupTokens, strContains (pyLower message) tok = true) :
    extract_referenced_restaurant_name message ranked_names = ranked_names.head? := by
  unfold extract_referenced_restaurant_name
  dsimp only
  have h1 : ranked_names.find? (fun name => strContains (pyLower message) (pyLower name)) = none := by
    rw [List.find?_eq_none]
    intro x hx
    simp [hname x hx]
  rw [h1]
  have h2 : ordinalHints.find? (fun p => strContains (pyLower message) p.1 &&
      decide (p.2 < ranked_names.length)) = none := by
    rw [List.find?_eq_none]
    intro p hp
    have := hord p.1 (List.mem_map_of_mem _ hp)
    simp [this]
  rw [h2]
  have h3 : pronounFollowupTokens.any (fun tok => strContains (pyLower message) tok) = true := by
    rcases hpron with ⟨tok, htok, htokc⟩
    exact List.any_eq_true.mpr ⟨tok, htok, htokc⟩
  simp [hlast, htop, hbest, h3]

/-- C4 witness: `what's its phone number` against a two-restaurant context
resolves to the first name. -/
theorem C4_pronoun_resolves_first_witness :
    extract_referenced_restaurant_name "what\x27s its phone number" ["Alpha", "Beta"] =
      some "Alpha" :=
  C4_pronoun_resolves_first "what\x27s its phone number" ["Alpha", "Beta"]
    (by decide) (by decide) (by decide) (by decide) (by decide) (by decide)

/-- First restaurant of the two-restaurant counterexample context. -/
def alphaRow : Restaurant :=
  { id := 1, name := "Alpha", cuisine_type := some "japanese", description := none
    street := none, city := "San Jose", state := none, zip_code := none
    phone := some "555-0100", email := none, pricing_tier := none, hours_json := none
    amenities := none }

/-- Second restaurant of the counterexample context. -/
def betaRow : Restaurant :=
  { id := 2, name := "Beta", cuisine_type := some "mexican", description := none
    street := none, city := "San Jose", state := none, zip_code := none
    phone := some "555-0200", email := none, pricing_tier := none, hours_json := none
    amenities := none }

/-- Two-restaurant database for the C4 counterexample. -/
def alphaBetaDB : DB :=
  { catalog := [alphaRow, betaRow], ratings := fun _ => (0, 0)
    prefsFor := fun _ => emptyPreference }

/-- Conversation in which the assistant last showed a ranked two-item list. -/
def alphaBetaHistory : List ConversationTurn :=
  [{ role := "assistant", content := "1. Alpha (4.5★)\n2. Beta (4.0★)" }]

/-- C4 counterexample: with TWO restaurants in context and a pronoun-only
cue, the claim requires a clarification listing up to 3 names, but the
follow-up handler answers the contact question about the first restaurant
(`Alpha`) with a single suggestion. -/
theorem C4_counterexample :
    handle_attribute_followup alphaBetaDB "what\x27s its phone number" alphaBetaHistory
        emptyPreference =
      some { reply := "Alpha contact info: phone: 555-0100"
             suggested_restaurants :=
               [{ id := 1, name := "Alpha"
                  reason := "Contact details for your selected restaurant"
                  average_rating := some 0, pricing_tier := none
                  cuisine_type := some "japanese", city := some "San Jose" }] } := by
  decide

lemma str_ne_empty_iff (a : String) : a ≠ "" ↔ a.data ≠ [] := by
  constructor
  · intro h hd
    exact h (String.ext hd)
  · intro h he
    exact h (congrArg String.data he)

lemma append_ne_empty_of_left (a b : String) (h : a ≠ "") : a ++ b ≠ "" := by
  rw [str_ne_empty_iff] at h ⊢
  rw [String.data_append]
  intro e
  exact h (List.append_eq_nil.mp e).1

lemma append_ne_empty_of_right (a b : String) (h : b ≠ "") : a ++ b ≠ "" := by
  rw [str_ne_empty_iff] at h ⊢
  rw [String.data_append]
  intro e
  exact h (List.append_eq_nil.mp e).2

lemma intercalate_go_ne_empty (s : String) (l : List String) :
    ∀ acc : String, acc ≠ "" → String.intercalate.go acc s l ≠ "" := by
  induction l with
  | nil => intro acc h; exact h
  | cons a as ih =>
    intro acc h
    unfold String.intercalate.go
    exact ih _ (append_ne_empty_of_left _ _ (append_ne_empty_of_left _ _ h))

lemma intercalate_cons_ne_empty (s a : String) (l : List String) (h : a ≠ "") :
    String.intercalate s (a :: l) ≠ "" := by
  unfold String.intercalate
  exact intercalate_go_ne_empty s l a h

lemma build_location_followup_reply_ne (r : Restaurant) :
    build_location_followup_reply r ≠ "" := by
  unfold build_location_followup_reply
  dsimp only
  split_ifs <;> exact append_ne_empty_of_right _ _ (by decide)

lemma hoursFallbackText_ne (r : Restaurant) : hoursFallbackText r ≠ "" := by
  unfold hoursFallbackText
  exact append_ne_empty_of_right _ _ (by decide)

lemma build_hours_followup_reply_ne (r : Restaurant) :
    build_hours_followup_reply r ≠ "" := by
  unfold build_hours_followup_reply
  cases r.hours_json with
  | none => exact hoursFallbackText_ne r
  | some hj =>
    dsimp only
    split_ifs <;>
      first
        | exact hoursFallbackText_ne r
        | exact append_ne_empty_of_right _ _ (by decide)
        | exact append_ne_empty_of_left _ _ (append_ne_empty_of_right _ _ (by decide))

lemma build_contact_followup_reply_ne (r : Restaurant) :
    build_contact_followup_reply r ≠ "" := by
  unfold build_contact_followup_reply
  dsimp only
  split_ifs <;>
    first
      | exact append_ne_empty_of_right _ _ (by decide)
      | exact append_ne_empty_of_left _ _ (append_ne_empty_of_right _ _ (by decide))

lemma build_rating_followup_reply_ne (r : Restaurant) (avg : ℚ) (cnt : Nat) :
    build_rating_followup_reply r avg cnt ≠ "" := by
  unfold build_rating_followup_reply
  split_ifs <;> exact append_ne_empty_of_right _ _ (by decide)

lemma build_price_followup_reply_ne (r : Restaurant) :
    build_price_followup_reply r ≠ "" := by
  unfold build_price_followup_reply
  split_ifs <;> exact append_ne_empty_of_right _ _ (by decide)

lemma build_cuisine_followup_reply_ne (r : Restaurant) :
    build_cuisine_followup_reply r ≠ "" := by
  unfold build_cuisine_followup_reply
  split_ifs <;> exact append_ne_empty_of_right _ _ (by decide)

lemma amenitiesReplyFallback_ne (r : Restaurant) : amenitiesReplyFallback r ≠ "" := by
  unfold amenitiesReplyFallback
  dsimp only
  split_ifs <;>
    first
      | exact append_ne_empty_of_right _ _ (by decide)
      | exact append_ne_empty_of_left _ _ (append_ne_empty_of_right _ _ (by decide))

lemma build_amenities_followup_reply_ne (r : Restaurant) :
    build_amenities_followup_reply r ≠ "" := by
  unfold build_amenities_followup_reply
  cases r.amenities with
  | none => exact amenitiesReplyFallback_ne r
  | some raw =>
    dsimp only
    split_ifs <;>
      first
        | exact amenitiesReplyFallback_ne r
        | exact append_ne_empty_of_left _ _ (append_ne_empty_of_right _ _ (by decide))

lemma build_summary_followup_reply_ne (r : Restaurant) :
    build_summary_followup_reply r ≠ "" := by
  unfold build_summary_followup_reply
  dsimp only
  exact append_ne_empty_of_right _ _ (by decide)

lemma build_attribute_followup_reply_ne (r : Restaurant) (ft : String) (avg : ℚ) (cnt : Nat) :
    (build_attribute_followup_reply r ft avg cnt).1 ≠ "" := by
  unfold build_attribute_followup_reply
  split_ifs <;>
    first
      | exact build_hours_followup_reply_ne r
      | exact build_location_followup_reply_ne r
      | exact build_contact_followup_reply_ne r
      | exact build_rating_followup_reply_ne r avg cnt
      | exact build_price_followup_reply_ne r
      | exact build_amenities_followup_reply_ne r
      | exact build_cuisine_followup_reply_ne r
      | exact build_summary_followup_reply_ne r

lemma build_followup_clarification_reply_ne (ranked_names : List String) :
    build_followup_clarification_reply ranked_names ≠ "" := by
  unfold build_followup_clarification_reply
  split_ifs
  · decide
  · exact append_ne_empty_of_right _ _ (by decide)

lemma build_fallback_reply_ne (suggestions : List SuggestedRestaurant) :
    build_fallback_reply suggestions ≠ "" := by
  unfold build_fallback_reply
  dsimp only
  split_ifs
  · decide
  · exact intercalate_cons_ne_empty _ _ _ (by decide)

lemma handle_attribute_followup_reply_ne (db : DB) (m : String)
    (hist : List ConversationTurn) (p : Preference) (f : AIChatResponse)
    (h : handle_attribute_followup db m hist p = some f) : f.reply ≠ "" := by
  unfold handle_attribute_followup at h
  dsimp only at h
  repeat' split at h
  all_goals
    first
      | exact Option.noConfusion h
      | (rw [Option.some.injEq] at h
         subst h
         first
           | decide
           | exact build_followup_clarification_reply_ne _
           | exact build_attribute_followup_reply_ne _ _ _ _)

/-- C1: `generate_chat_response` fails exactly on a blank message, and for
every non-blank message — with every optional provider absent or failing —
it returns normally with a non-empty reply. -/
theorem C1_blank_rejection_and_nonempty_reply (db : DB) (user_id : Nat) (message : String)
    (hist : List ConversationTurn) :
    (generate_chat_response db user_id message hist = .error "Message cannot be empty." ↔
      pyStrip message = "") ∧
    (pyStrip message ≠ "" → ∃ resp, generate_chat_response db user_id message hist = .ok resp ∧
      resp.reply ≠ "") := by
  unfold generate_chat_response
  dsimp only
  by_cases hb : pyStrip message = ""
  · rw [if_pos hb]
    exact ⟨⟨fun _ => hb, fun _ => rfl⟩, fun hne => absurd hb hne⟩
  · rw [if_neg hb]
    constructor
    · constructor
      · intro he
        split at he
        · exact Except.noConfusion he
        · exact Except.noConfusion he
      · intro he
        exact absurd he hb
    · intro _
      cases hh : handle_attribute_followup db (pyStrip message) hist (db.prefsFor user_id) with
      | some f =>
        exact ⟨f, rfl, handle_attribute_followup_reply_ne _ _ _ _ f hh⟩
      | none =>
        exact ⟨_, rfl, build_fallback_reply_ne
          ((List.take 5 (search_and_rank_restaurants db
            (extract_intent (pyStrip message) hist (db.prefsFor user_id))
            (db.prefsFor user_id))).map build_suggestion)⟩

/-- C1 witness: a concrete non-blank message on an empty catalog yields a
normal response with a non-empty reply. -/
theorem C1_blank_rejection_and_nonempty_reply_witness :
    pyStrip "hi" ≠ "" ∧
    (∃ resp, generate_chat_response ⟨[], fun _ => (0, 0), fun _ => emptyPreference⟩ 1 "hi" [] =
      .ok resp ∧ resp.reply ≠ "") :=
  ⟨by decide,
   (C1_blank_rejection_and_nonempty_reply ⟨[], fun _ => (0, 0), fun _ => emptyPreference⟩
     1 "hi" []).2 (by decide)⟩

lemma build_followup_suggestions_length_le (db : DB) (ns : List String) :
    (build_followup_suggestions db ns).length ≤ 3 := by
  unfold build_followup_suggestions
  dsimp only
  split_ifs <;>
    first
      | exact le_trans (List.length_filterMap_le _ _) (List.length_take_le _ _)
      | (rw [List.length_map]
         first
           | exact List.length_take_le _ _
           | exact le_trans (List.length_filterMap_le _ _) (List.length_take_le _ _))
      | (simp
         done)
      | simp

lemma handle_attribute_followup_suggestions_le (db : DB) (m : String)
    (hist : List ConversationTurn) (p : Preference) (f : AIChatResponse)
    (h : handle_attribute_followup db m hist p = some f) :
    f.suggested_restaurants.length ≤ 5 := by
  unfold handle_attribute_followup at h
  dsimp only at h
  repeat' split at h
  all_goals
    first
      | exact Option.noConfusion h
      | (rw [Option.some.injEq] at h
         subst h
         first
           | exact le_trans (build_followup_suggestions_length_le _ _) (by norm_num)
           | (dsimp only
              exact le_trans (build_followup_suggestions_length_le _ _) (by norm_num))
           | (simp
              done)
           | simp)

/-- C10: every response carries at most 5 suggested restaurants — the
fresh-search path truncates to 5, a resolved follow-up returns exactly 1,
and a clarification returns at most 3. -/
theorem C10_at_most_five_suggestions (db : DB) (user_id : Nat) (message : String)
    (hist : List ConversationTurn) (resp : AIChatResponse)
    (h : generate_chat_response db user_id message hist = .ok resp) :
    resp.suggested_restaurants.length ≤ 5 := by
  unfold generate_chat_response at h
  dsimp only at h
  repeat' split at h
  all_goals
    first
      | exact Except.noConfusion h
      | (rename_i f heq
         rw [Except.ok.injEq] at h
         subst h
         exact handle_attribute_followup_suggestions_le _ _ _ _ f heq)
      | (rw [Except.ok.injEq] at h
         subst h
         dsimp only
         rw [List.length_map]
         exact le_trans (List.length_take_le _ _) (by norm_num))

/-- C10 witness: the theorem applied to a concrete run (empty catalog,
message `hi`). -/
theorem C10_at_most_five_suggestions_witness :
    (AIChatResponse.mk ("I couldn\x27t find a strong match yet. Try adding cuisine, budget ($-$$$$), " ++
      "or location so I can narrow recommendations.") []).suggested_restaurants.length ≤ 5 :=
  C10_at_most_five_suggestions ⟨[], fun _ => (0, 0), fun _ => emptyPreference⟩ 1 "hi" [] _ rfl

/-- C5 counterexample: on the heuristic-only path no length cap is
applied — a message naming 7 default cuisines yields a Query Intent whose
`cuisines` list has 7 entries, exceeding the claimed cap of 6. -/
theorem C5_counterexample :
    (extract_intent "american chinese french indian italian japanese korean" []
      emptyPreference).cuisines.length = 7 := by decide

/-- C5 witness: the amended theorem applied to a concrete message (the
lower-cased-members clause instantiated at `italian`, and the keyword cap
clause). -/
theorem C5_intent_list_normalization_witness :
    pyLower "italian" = "italian" ∧
    (extract_intent "vegan italian dinner" [] emptyPreference).keywords.length ≤ 6 :=
  ⟨(C5_intent_list_normalization "vegan italian dinner" [] emptyPreference emptyIntent).1.2.1
      "italian" (by decide),
   (C5_intent_list_normalization "vegan italian dinner" [] emptyPreference
      emptyIntent).1.2.2.2.2.2.2.1⟩

/-- Intent with an explicit cuisine and a free-text keyword matching no
catalog field. -/
def frenchKwIntent : Intent :=
  { cuisines := ["french"], price_range := none, location := none
    dietary_needs := [], ambiance := [], keywords := ["zzz"], occasion := none }

/-- C7 witness: with an explicit cuisine present, erasing the keywords
leaves the candidate query unchanged and the ranked result holds the same
restaurants. -/
theorem C7_keyword_filter_scope_witness :
    candidate_query parisDB frenchKwIntent =
      candidate_query parisDB { frenchKwIntent with keywords := [] } ∧
    ((search_and_rank_restaurants parisDB frenchKwIntent emptyPreference).map
        (·.restaurant)).Perm
      ((search_and_rank_restaurants parisDB { frenchKwIntent with keywords := [] }
        emptyPreference).map (·.restaurant)) :=
  (C7_keyword_filter_scope parisDB frenchKwIntent emptyPreference).1 (by decide)
